import Mathlib

/-
Verification of the automatic chart-selection engine of the CortexCharts
repository against its natural-language specification.

The embedding models:
  * the column classifier and rule engine inlined in `display_chart`
    (src/pages/1_Cortex_Analyst.py, lines 361-596), and
  * the chart builders `create_chart1` .. `create_chart10`, the KPI tile
    renderer, and the chart5 branch of `generate_chart_code_for_dataframe`
    (src/utils/chart_utils.py).

Modelling conventions:
  * A pandas DataFrame is a list of named columns; each column carries a
    declared dtype and a list of cell values.  Dtypes are abstracted to the
    four classes the code distinguishes through
    `pd.api.types.is_numeric_dtype` / `is_datetime64_any_dtype` /
    `is_string_dtype or is_object_dtype`; `Dtype.other` stands for any
    pandas dtype for which all of those predicates are false (for example
    timedelta64 or categorical).
  * Numeric cells are rationals (Python ints/floats at the exactly
    representable values the claims exercise), dates are abstract integers.
  * `pd.to_datetime(-, errors := coerce)` applied to one cell is modelled by
    `to_datetime_val`, parameterised by the external string-date parser
    `parse : String → Option Int`; missing cells map to NaT (`none`),
    numeric cells parse as epoch offsets (pandas accepts numbers), datetime
    cells are already dates.
  * Streamlit session state is an association list; assignment conses a new
    binding and `lookup_state` returns the most recent one.  Python's
    `hash(str(df.shape) + str(df.columns.tolist()))` widget-key fingerprint
    is modelled by the hashed string itself (an injective idealisation of
    the hash).
  * Altair chart construction is lazy: building an encoding never consults
    the DataFrame, so `alt.X(col + ":T")` fails only when the role value is
    Python `None` (a `TypeError` on string concatenation, caught by the
    builder's `except` and turned into `None`).  Role dictionaries are
    therefore structures of `Option String` fields, mirroring `cols.get`.
-/

set_option maxHeartbeats 1600000

/-! ## Basic string machinery -/

/-- Character-list equality-from-the-left test used by `ch_list_sub`. -/
def ch_list_le : List Char → List Char → Bool
  | [], _ => true
  | _ :: _, [] => false
  | a :: as, b :: bs => a == b && ch_list_le as bs

/-- Does the character list contain `needle` as a contiguous sublist? -/
def ch_list_sub (needle : List Char) : List Char → Bool
  | [] => ch_list_le needle []
  | b :: bs => ch_list_le needle (b :: bs) || ch_list_sub needle bs

/-- Python's `term in col_lower` substring test. -/
def str_has_sub (hay needle : String) : Bool :=
  ch_list_sub needle.data hay.data

/-- ASCII lower-casing of one character (column names are ASCII). -/
def char_lower (c : Char) : Char :=
  if 65 ≤ c.toNat ∧ c.toNat ≤ 90 then Char.ofNat (c.toNat + 32) else c

/-- Python's `col.lower()` on ASCII column names. -/
def str_lower (s : String) : String :=
  ⟨s.data.map char_lower⟩

/-! ## Data model -/

/-- Dtype classes distinguished by the classifier; `other` covers pandas
dtypes (timedelta64, categorical, ...) on which all of the code's dtype
predicates are false. -/
inductive Dtype
  | numeric
  | datetime
  | object
  | other
deriving DecidableEq, Repr

/-- One cell of a tabular result. -/
inductive Val
  | null
  | num (q : ℚ)
  | str (s : String)
  | date (t : Int)
deriving DecidableEq, Repr

/-- A named column with its declared dtype and stored values. -/
structure Column where
  name : String
  dtype : Dtype
  values : List Val
deriving DecidableEq, Repr

/-- A tabular query result: an ordered sequence of named columns. -/
structure DataFrame where
  cols : List Column
deriving DecidableEq, Repr

/-- Column names, in declaration order (`df.columns`). -/
def DataFrame.names (df : DataFrame) : List String :=
  df.cols.map (·.name)

/-- Row count (`len(df)`); 0 for a frame with no columns. -/
def DataFrame.nrows (df : DataFrame) : Nat :=
  match df.cols with
  | [] => 0
  | c :: _ => c.values.length

/-- The `df.head(n)` truncation: keep the first `n` rows of every column. -/
def DataFrame.headRows (df : DataFrame) (n : Nat) : DataFrame :=
  ⟨df.cols.map (fun c => ⟨c.name, c.dtype, c.values.take n⟩)⟩

/-- Column access by label (`df[name]`). -/
def DataFrame.findCol (df : DataFrame) (name : String) : Option Column :=
  df.cols.find? (fun c => c.name == name)

/-- Dtype predicate `pd.api.types.is_numeric_dtype`. -/
def is_numeric_dtype : Dtype → Bool
  | .numeric => true
  | _ => false

/-- Dtype predicate `pd.api.types.is_datetime64_any_dtype`. -/
def is_datetime_dtype : Dtype → Bool
  | .datetime => true
  | _ => false

/-- Dtype predicate `is_string_dtype(...) or is_object_dtype(...)`. -/
def is_str_or_object_dtype : Dtype → Bool
  | .object => true
  | _ => false

/-! ## Column classifier (display_chart lines 374-415) -/

/-- The `date_related_terms` list of display_chart. -/
def date_related_terms : List String :=
  ["date", "month", "year", "day", "time", "dt", "period"]

/-- Does the lower-cased column name contain a date-related term? -/
def name_has_date_term (name : String) : Bool :=
  date_related_terms.any (fun t => str_has_sub (str_lower name) t)

/-- The `potential_date_cols` candidate list: columns with date-related names
(any dtype) first, then the remaining string/object columns. -/
def potential_date_cols (df : DataFrame) : List String :=
  let nameBased := (df.cols.filter (fun c => name_has_date_term c.name)).map (·.name)
  let others := (df.cols.filter (fun c =>
      !(nameBased.contains c.name) && is_str_or_object_dtype c.dtype)).map (·.name)
  nameBased ++ others

/-- One cell under `pd.to_datetime(-, errors := coerce)`: nulls become NaT,
numbers parse as epoch offsets, strings go through the external parser,
dates stay. -/
def to_datetime_val (parse : String → Option Int) : Val → Option Int
  | .null => none
  | .num q => some q.floor
  | .str s => parse s
  | .date t => some t

/-- Is the cell null (NaN/None/NaT)? -/
def val_is_null : Val → Bool
  | .null => true
  | _ => false

/-- `df[col].count()`: number of non-null values. -/
def nonnull_count (c : Column) : Nat :=
  c.values.countP (fun v => !val_is_null v)

/-- `temp_series.count()`: number of values that parse to a date. -/
def parsed_count (parse : String → Option Int) (c : Column) : Nat :=
  c.values.countP (fun v => (to_datetime_val parse v).isSome)

/-- The parsed column that replaces a promoted column in place: successes
become dates, failures become NaT. -/
def parsed_values (parse : String → Option Int) (c : Column) : List Val :=
  c.values.map (fun v =>
    match to_datetime_val parse v with
    | some t => Val.date t
    | none => Val.null)

/-- The promotion test of display_chart line 404-406: the column has non-null
values and at least 90% of them parse (`success_rate >= 0.9`, in exact
arithmetic `9 * non_null <= 10 * parsed`). -/
def date_promotable (parse : String → Option Int) (c : Column) : Prop :=
  0 < nonnull_count c ∧ 9 * nonnull_count c ≤ 10 * parsed_count parse c

instance (parse : String → Option Int) (c : Column) :
    Decidable (date_promotable parse c) := by
  unfold date_promotable
  infer_instance

/-- In-place promotion `df_display[col] = temp_series`: the labelled column's
values are replaced by their parsed dates and its dtype becomes datetime. -/
def DataFrame.setColParsed (df : DataFrame) (name : String)
    (parse : String → Option Int) : DataFrame :=
  ⟨df.cols.map (fun c =>
    if c.name = name then ⟨c.name, .datetime, parsed_values parse c⟩ else c)⟩

/-- The candidate scan of display_chart lines 398-411: walk the candidate
list, promote the first column that clears the 90% threshold, and stop. -/
def promote_first (parse : String → Option Int) (df : DataFrame) :
    List String → DataFrame × List String
  | [] => (df, [])
  | c :: rest =>
    match df.findCol c with
    | none => promote_first parse df rest
    | some col =>
      if date_promotable parse col then
        (df.setColParsed c parse, [c])
      else promote_first parse df rest

/-- Result of the column classifier: the (possibly mutated) frame plus the
three name lists. -/
structure Classified where
  df : DataFrame
  date_cols : List String
  text_cols : List String
  numeric_cols : List String
deriving DecidableEq, Repr

/-- The column classification inlined in display_chart lines 374-415:
numeric columns by dtype, datetime columns by dtype, a single best-effort
string-date promotion when no datetime column exists, and the remaining
string/object columns as text. -/
def classify_columns (parse : String → Option Int) (df0 : DataFrame) : Classified :=
  let numeric_cols := (df0.cols.filter (fun c => is_numeric_dtype c.dtype)).map (·.name)
  let date_init := (df0.cols.filter (fun c => is_datetime_dtype c.dtype)).map (·.name)
  let p :=
    if date_init.isEmpty then promote_first parse df0 (potential_date_cols df0)
    else (df0, date_init)
  let df1 := p.1
  let date_cols := p.2
  let text_cols := (df1.cols.filter (fun c =>
      !(numeric_cols.contains c.name) && !(date_cols.contains c.name) &&
      is_str_or_object_dtype c.dtype)).map (·.name)
  ⟨df1, date_cols, text_cols, numeric_cols⟩

/-! ## Chart object model (altair declarative encodings) -/

/-- Mark definition: `mark_bar()`, `mark_line(color)`, `mark_circle(size?)`,
`mark_point(size?)`. -/
structure MarkDef where
  kind : String
  color : Option String
  size : Option Int
deriving DecidableEq, Repr

/-- One channel encoding (`alt.X/Y/Color/Shape/Size`): shorthand field and
type plus the keyword options the builders use. -/
structure EncField where
  field : String
  typ : String
  sortBy : Option String
  stackBy : Option String
  axisTitle : Option String
  chanTitle : Option String
  scaleRange : Option (List String)
deriving DecidableEq, Repr

/-- A single-view altair chart (`alt.Chart(df).mark_*().encode(...)`). -/
structure ChartSingle where
  data : DataFrame
  mark : MarkDef
  x : Option EncField
  y : Option EncField
  color : Option EncField
  shape : Option EncField
  size : Option EncField
  tooltip : List String
  title : String
deriving DecidableEq, Repr

/-- A chart object: either a single view or the two-line
`alt.layer(line1, line2).resolve_scale(y)` of create_chart2. -/
inductive Chart
  | single (c : ChartSingle)
  | layer (line1 line2 : ChartSingle) (resolve_y : String) (title : String)
deriving DecidableEq, Repr

/-- A plain positional encoding with no keyword options. -/
def enc (f typ : String) : EncField :=
  ⟨f, typ, none, none, none, none, none⟩

/-- The 11-symbol shape palette of create_chart6 / create_chart8. -/
def shape_palette : List String :=
  ["circle", "square", "cross", "diamond", "triangle-up", "triangle-down",
   "triangle-right", "triangle-left", "arrow", "wedge", "stroke"]

/-! ## Streamlit session state (interactive selector state) -/

/-- Session state: an association list from widget key to the stored
selection; assignment conses, lookup takes the most recent binding. -/
abbrev SelState := List (String × String)

/-- Read `st.session_state[key]`, if present. -/
def lookup_state (state : SelState) (key : String) : Option String :=
  (state.find? (fun p => p.1 == key)).map (·.2)

/-- Write `st.session_state[key] = val`. -/
def set_state (state : SelState) (key val : String) : SelState :=
  (key, val) :: state

/-- The selector initialise/reset logic duplicated at chart_utils lines
213-217 (create_chart4) and 425-436 (create_chart9): unseen key gets the
first option, a stale stored value is reset to the first option, a valid
stored value is kept. -/
def init_selector (state : SelState) (key : String) (options : List String) : SelState :=
  match lookup_state state key with
  | none => set_state state key (options.headD "")
  | some v => if options.contains v then state else set_state state key (options.headD "")

/-- The widget-key fingerprint
`hash(str(df.shape) + str(df.columns.tolist()))`, with the hash modelled as
the hashed string itself. -/
def df_fingerprint (df : DataFrame) : String :=
  toString df.nrows ++ "," ++ toString df.cols.length ++ ";" ++
    String.intercalate "," df.names

/-! ## Chart builders (chart_utils.py) -/

/-- Role dictionary of create_chart1 (`cols.get` yields `none` when the key
is absent). -/
structure Chart1Cols where
  date_col : Option String
  numeric_col : Option String
deriving DecidableEq, Repr

/-- Role dictionary of create_chart2. -/
structure Chart2Cols where
  date_col : Option String
  num_col1 : Option String
  num_col2 : Option String
deriving DecidableEq, Repr

/-- Role dictionary of create_chart3. -/
structure Chart3Cols where
  date_col : Option String
  text_col : Option String
  numeric_col : Option String
deriving DecidableEq, Repr

/-- Role dictionary of create_chart4 (`cols.get` with default `[]` for the
text column list). -/
structure Chart4Cols where
  date_col : Option String
  text_cols : List String
  numeric_col : Option String
deriving DecidableEq, Repr

/-- Role dictionary of create_chart5. -/
structure Chart5Cols where
  num_col1 : Option String
  num_col2 : Option String
  text_col : Option String
deriving DecidableEq, Repr

/-- Role dictionary of create_chart6. -/
structure Chart6Cols where
  num_col1 : Option String
  num_col2 : Option String
  text_col1 : Option String
  text_col2 : Option String
deriving DecidableEq, Repr

/-- Role dictionary of create_chart7. -/
structure Chart7Cols where
  num_col1 : Option String
  num_col2 : Option String
  num_col3 : Option String
  text_col : Option String
deriving DecidableEq, Repr

/-- Role dictionary of create_chart8. -/
structure Chart8Cols where
  num_col1 : Option String
  num_col2 : Option String
  num_col3 : Option String
  text_col1 : Option String
  text_col2 : Option String
deriving DecidableEq, Repr

/-- Role dictionary of create_chart9. -/
structure Chart9Cols where
  numeric_col : Option String
  text_cols : List String
  is_stacked : Bool
deriving DecidableEq, Repr

/-- Python `str(x)` on an optional string: the f-strings of create_chart9
interpolate `None` literally. -/
def pyStr : Option String → String
  | some s => s
  | none => "None"

/-- The chart object built by create_chart1's success path. -/
def chart1_chart (df : DataFrame) (d n : String) : Chart :=
  .single ⟨df, ⟨"bar", none, none⟩,
    some ⟨d, "T", some "ascending", none, none, none, none⟩,
    some (enc n "Q"), none, none, none, [d, n], ""⟩

/-- Chart 1 (bar chart by date): returns the chart, or `None` when a
required role is missing (the `None + ":T"` TypeError caught by the
builder's `except`). -/
def create_chart1 (df : DataFrame) (cols : Chart1Cols) : Option Chart :=
  match cols.date_col, cols.numeric_col with
  | some d, some n => some (chart1_chart df d n)
  | _, _ => none

/-- The layered chart built by create_chart2's success path. -/
def chart2_chart (df : DataFrame) (d n1 n2 : String) : Chart :=
  .layer
    ⟨df, ⟨"line", some "blue", none⟩,
      some ⟨d, "T", some "ascending", none, none, none, none⟩,
      some ⟨n1, "Q", none, none, some n1, none, none⟩,
      none, none, none, [d, n1], ""⟩
    ⟨df, ⟨"line", some "red", none⟩,
      some ⟨d, "T", some "ascending", none, none, none, none⟩,
      some ⟨n2, "Q", none, none, some n2, none, none⟩,
      none, none, none, [d, n2], ""⟩
    "independent" ""

/-- Chart 2 (dual axis line chart). -/
def create_chart2 (df : DataFrame) (cols : Chart2Cols) : Option Chart :=
  match cols.date_col, cols.num_col1, cols.num_col2 with
  | some d, some n1, some n2 => some (chart2_chart df d n1 n2)
  | _, _, _ => none

/-- The chart object built by create_chart3's success path. -/
def chart3_chart (df : DataFrame) (d t n : String) : Chart :=
  .single ⟨df, ⟨"bar", none, none⟩,
    some ⟨d, "T", some "ascending", none, none, none, none⟩,
    some ⟨n, "Q", none, some "zero", none, none, none⟩,
    some (enc t "N"), none, none, [d, t, n], ""⟩

/-- Chart 3 (stacked bar chart by date). -/
def create_chart3 (df : DataFrame) (cols : Chart3Cols) : Option Chart :=
  match cols.date_col, cols.text_col, cols.numeric_col with
  | some d, some t, some n => some (chart3_chart df d t n)
  | _, _, _ => none

/-- The effective text-column pool of create_chart4: the supplied list, or
every column other than the bound date and numeric columns when the list is
empty. -/
def chart4_text_pool (df : DataFrame) (cols : Chart4Cols) : List String :=
  if cols.text_cols.isEmpty then
    df.names.filter (fun c => !(some c == cols.date_col) && !(some c == cols.numeric_col))
  else cols.text_cols

/-- The chart object built by create_chart4's success path for the selected
colour column. -/
def chart4_chart (df : DataFrame) (d sel n : String) : Chart :=
  .single ⟨df, ⟨"bar", none, none⟩,
    some ⟨d, "T", some "ascending", none, none, none, none⟩,
    some ⟨n, "Q", none, some "zero", none, none, none⟩,
    some ⟨sel, "N", none, none, none, some sel, none⟩,
    none, none, [d, sel, n], ""⟩

/-- Chart 4 (stacked bar chart with a colour-column selector): the selector
state is initialised/reset before the chart is built, so the state update
persists even when the chart construction then fails on a missing role. -/
def create_chart4 (df : DataFrame) (cols : Chart4Cols) (state : SelState) :
    Option Chart × SelState :=
  let pool := chart4_text_pool df cols
  if pool.isEmpty then (none, state)
  else
    let key := "chart4_select_" ++ df_fingerprint df
    let state1 := init_selector state key pool
    let sel := (lookup_state state1 key).getD ""
    match cols.date_col, cols.numeric_col with
    | some d, some n => (some (chart4_chart df d sel n), state1)
    | _, _ => (none, state1)

/-- The chart object built by create_chart5's success path
(`mark_circle(size=100)`, tooltip `[text, num1, num2]`). -/
def chart5_chart (df : DataFrame) (n1 n2 t : String) : Chart :=
  .single ⟨df, ⟨"circle", none, some 100⟩,
    some (enc n1 "Q"), some (enc n2 "Q"), some (enc t "N"),
    none, none, [t, n1, n2], ""⟩

/-- Chart 5 (scatter chart). -/
def create_chart5 (df : DataFrame) (cols : Chart5Cols) : Option Chart :=
  match cols.num_col1, cols.num_col2, cols.text_col with
  | some n1, some n2, some t => some (chart5_chart df n1 n2 t)
  | _, _, _ => none

/-- The chart object built by create_chart6's success path. -/
def chart6_chart (df : DataFrame) (n1 n2 t1 t2 : String) : Chart :=
  .single ⟨df, ⟨"point", none, some 100⟩,
    some (enc n1 "Q"), some (enc n2 "Q"), some (enc t1 "N"),
    some ⟨t2, "N", none, none, none, none, some shape_palette⟩,
    none, [t1, t2, n1, n2], ""⟩

/-- Chart 6 (scatter chart with colour and shape dimensions). -/
def create_chart6 (df : DataFrame) (cols : Chart6Cols) : Option Chart :=
  match cols.num_col1, cols.num_col2, cols.text_col1, cols.text_col2 with
  | some n1, some n2, some t1, some t2 => some (chart6_chart df n1 n2 t1 t2)
  | _, _, _, _ => none

/-- The chart object built by create_chart7's success path. -/
def chart7_chart (df : DataFrame) (n1 n2 n3 t : String) : Chart :=
  .single ⟨df, ⟨"circle", none, none⟩,
    some (enc n1 "Q"), some (enc n2 "Q"), some (enc t "N"),
    none, some (enc n3 "Q"), [t, n1, n2, n3], ""⟩

/-- Chart 7 (bubble chart). -/
def create_chart7 (df : DataFrame) (cols : Chart7Cols) : Option Chart :=
  match cols.num_col1, cols.num_col2, cols.num_col3, cols.text_col with
  | some n1, some n2, some n3, some t => some (chart7_chart df n1 n2 n3 t)
  | _, _, _, _ => none

/-- The chart object built by create_chart8's success path. -/
def chart8_chart (df : DataFrame) (n1 n2 n3 t1 t2 : String) : Chart :=
  .single ⟨df, ⟨"point", none, none⟩,
    some (enc n1 "Q"), some (enc n2 "Q"), some (enc t1 "N"),
    some ⟨t2, "N", none, none, none, none, some shape_palette⟩,
    some (enc n3 "Q"), [t1, t2, n1, n2, n3], ""⟩

/-- Chart 8 (multi-dimensional bubble chart). -/
def create_chart8 (df : DataFrame) (cols : Chart8Cols) : Option Chart :=
  match cols.num_col1, cols.num_col2, cols.num_col3, cols.text_col1, cols.text_col2 with
  | some n1, some n2, some n3, some t1, some t2 =>
    some (chart8_chart df n1 n2 n3 t1 t2)
  | _, _, _, _, _ => none

/-- The chart object built by create_chart9's success path; the numeric role
is interpolated through an f-string, so a missing role yields the literal
field `None` rather than an error. -/
def chart9_chart (df : DataFrame) (selX selC nStr : String) : Chart :=
  .single ⟨df, ⟨"bar", none, none⟩,
    some ⟨selX, "N", some "-y", none, none, none, none⟩,
    some ⟨nStr, "Q", none, some "zero", none, none, none⟩,
    some ⟨selC, "N", none, none, none, some selC, none⟩,
    none, none, [selX, selC, nStr], ""⟩

/-- Chart 9 (bar chart with x-axis and colour selectors). -/
def create_chart9 (df : DataFrame) (cols : Chart9Cols) (state : SelState) :
    Option Chart × SelState :=
  if cols.text_cols.isEmpty then (none, state)
  else
    let key := "chart9_select_" ++ df_fingerprint df
    let colorKey := "chart9_color_select_" ++ df_fingerprint df
    let state1 := init_selector state key cols.text_cols
    let state2 := init_selector state1 colorKey cols.text_cols
    let selX := (lookup_state state2 key).getD ""
    let selC := (lookup_state state2 colorKey).getD ""
    (some (chart9_chart df selX selC (pyStr cols.numeric_col)), state2)

/-! ## KPI tiles (create_chart10 / render_kpi_tiles) -/

/-- Python `abs(value)`. -/
def py_abs (q : ℚ) : ℚ :=
  if q < 0 then -q else q

/-- Round a rational to the nearest integer, ties to even — the rounding of
CPython's fixed-point formatting at exactly representable inputs. -/
def round_half_even (q : ℚ) : Int :=
  let f : Int := ⌊q⌋
  let r : ℚ := q - (f : ℚ)
  if r < 1/2 then f
  else if 1/2 < r then f + 1
  else if f % 2 = 0 then f else f + 1

/-- The `.1f` fixed-point format at exactly representable inputs. -/
def fmt1 (q : ℚ) : String :=
  let n := round_half_even (10 * q)
  let sgn := if n < 0 then "-" else ""
  sgn ++ toString (n.natAbs / 10) ++ "." ++ toString (n.natAbs % 10)

/-- The magnitude-based KPI value formatter of render_kpi_tiles lines
580-585: millions as `M`, thousands as `K`, otherwise one decimal. -/
def format_kpi_value (q : ℚ) : String :=
  if 1000000 ≤ py_abs q then fmt1 (q / 1000000) ++ "M"
  else if 1000 ≤ py_abs q then fmt1 (q / 1000) ++ "K"
  else fmt1 q

/-- Label lookup `labels.get(col_name, col_name)`. -/
def label_for (labels : List (String × String)) (colName : String) : String :=
  ((labels.find? (fun p => p.1 == colName)).map (·.2)).getD colName

/-- One KPI tile `(label, formatted value)` for a column; fails (modelling
the TypeError on `abs` of a non-number, caught upstream) when the first cell
is not numeric or the column is absent. -/
def tile_of (df : DataFrame) (labels : List (String × String)) (colName : String) :
    Option (String × String) :=
  match df.findCol colName with
  | none => none
  | some col =>
    match col.values.head? with
    | some (Val.num q) => some (label_for labels colName, format_kpi_value q)
    | _ => none

/-- The tile list rendered by render_kpi_tiles: at most four tiles, one per
numeric column, in column order. -/
def render_kpi_tiles (df : DataFrame) (numeric_cols : List String)
    (labels : List (String × String)) : Option (List (String × String)) :=
  let n_cols := min numeric_cols.length 4
  (numeric_cols.take n_cols).mapM (tile_of df labels)

/-- Chart 10 (KPI tiles) as invoked from display_chart, where the frame
inspection resolves to direct rendering: declines multi-row frames and empty
numeric lists, otherwise renders and returns the tile list (the `kpi_data`
record the Python function returns is ignored by its only caller). -/
def create_chart10 (df : DataFrame) (numeric_cols : List String)
    (labels : List (String × String)) : Option (List (String × String)) :=
  if df.nrows ≠ 1 then none
  else if numeric_cols.isEmpty then none
  else render_kpi_tiles df numeric_cols labels

/-! ## Code emitter (generate_chart_code_for_dataframe, chart5 branch) -/

/-- Python truthiness test `not x` on a role value: true for `None` and for
the empty string. -/
def py_falsy : Option String → Bool
  | none => true
  | some s => s == ""

/-- Shallow embedding of the program text printed by the chart5 branch of
generate_chart_code_for_dataframe (chart_utils lines 834-850).  When any
role is falsy the emitted body reports an error and returns no chart for
every frame; otherwise the emitted `create_chart(df)` builds
`mark_circle(size=60)` with x/y/colour on the interpolated roles, tooltip
`[num_col1, num_col2, text_col]`, and title `Scatter Plot`. -/
def emitted_chart5 (cols : Chart5Cols) (df : DataFrame) : Option Chart :=
  if py_falsy cols.num_col1 || py_falsy cols.num_col2 || py_falsy cols.text_col then none
  else
    let n1 := cols.num_col1.getD ""
    let n2 := cols.num_col2.getD ""
    let t := cols.text_col.getD ""
    some (.single ⟨df, ⟨"circle", none, some 60⟩,
      some (enc n1 "Q"), some (enc n2 "Q"), some (enc t "N"),
      none, none, [n1, n2, t], "Scatter Plot"⟩)

/-- A single view with its data dropped and its title erased, for the
"identical mark and encodings, modulo title" comparison. -/
def strip_single (c : ChartSingle) : ChartSingle :=
  ⟨⟨[]⟩, c.mark, c.x, c.y, c.color, c.shape, c.size, c.tooltip, ""⟩

/-- A chart with data dropped and titles erased. -/
def strip_chart : Chart → Chart
  | .single c => .single (strip_single c)
  | .layer a b r _ => .layer (strip_single a) (strip_single b) r ""

/-- Do two optional charts agree on every mark and encoding field, title
text aside?  False when either chart is absent. -/
def same_mark_enc (a b : Option Chart) : Bool :=
  match a, b with
  | some ca, some cb => decide (strip_chart ca = strip_chart cb)
  | _, _ => false

/-! ## Chart rule engine (display_chart lines 425-596) -/

/-- The chart specification (`chart_metadata`) attached to the frame by the
matching rule of display_chart. -/
inductive ChartMeta
  | m1 (date_col numeric_col : String)
  | m2 (date_col num_col1 num_col2 : String)
  | m3 (date_col text_col numeric_col : String)
  | m4 (date_col : String) (text_cols : List String) (numeric_col : String)
  | m5 (num_col1 num_col2 text_col : String)
  | m6 (num_col1 num_col2 text_col1 text_col2 : String)
  | m7 (num_col1 num_col2 num_col3 text_col : String)
  | m8 (num_col1 num_col2 num_col3 text_col1 text_col2 : String)
  | m9 (numeric_col : String) (text_cols : List String) (is_stacked : Bool)
  | m10 (numeric_cols : List String)
deriving DecidableEq, Repr

/-- What display_chart ends up showing: an altair chart, the KPI-tile path
(tiles already rendered by create_chart10, `alt_chart` set to the
`__KPI_RENDERED__` flag), or the "no appropriate chart" message. -/
inductive DisplayResult
  | shown (c : Chart)
  | kpiPath (tiles : Option (List (String × String)))
  | noChart
deriving DecidableEq, Repr

/-- The observable outcome of one display_chart call: the truncated (and
possibly date-promoted) frame, the chart metadata finally attached to it,
the display result, and the session state after any selector updates. -/
structure DisplayOutcome where
  df : DataFrame
  meta : Option ChartMeta
  result : DisplayResult
  state : SelState
deriving DecidableEq, Repr

/-- The counts-based decision list of display_chart lines 441-596, entered
with the (possibly mutated) truncated frame `df1` and the three
classification lists; `meta0` is the metadata a preceding non-returning
branch may already have attached. -/
def rules_chain (df1 : DataFrame) (dc tc nc : List String) (state : SelState)
    (meta0 : Option ChartMeta) : DisplayOutcome :=
  if df1.nrows = 1 ∧ 1 ≤ nc.length ∧ nc.length ≤ 4 ∧ tc.length ≤ 1 then
    ⟨df1, some (.m10 nc), .kpiPath (create_chart10 df1 nc []), state⟩
  else if dc.length = 1 ∧ tc.length = 0 ∧ nc.length = 1 then
    match create_chart1 df1 ⟨some (dc.headD ""), some (nc.headD "")⟩ with
    | some c => ⟨df1, some (.m1 (dc.headD "") (nc.headD "")), .shown c, state⟩
    | none => ⟨df1, some (.m1 (dc.headD "") (nc.headD "")), .noChart, state⟩
  else if dc.length = 1 ∧ tc.length = 0 ∧ nc.length = 2 then
    match create_chart2 df1
        ⟨some (dc.headD ""), some (nc.getD 0 ""), some (nc.getD 1 "")⟩ with
    | some c =>
      ⟨df1, some (.m2 (dc.headD "") (nc.getD 0 "") (nc.getD 1 "")), .shown c, state⟩
    | none =>
      ⟨df1, some (.m2 (dc.headD "") (nc.getD 0 "") (nc.getD 1 "")), .noChart, state⟩
  else if dc.length = 1 ∧ tc.length = 1 ∧ nc.length = 1 then
    match create_chart3 df1
        ⟨some (dc.headD ""), some (tc.headD ""), some (nc.headD "")⟩ with
    | some c =>
      ⟨df1, some (.m3 (dc.headD "") (tc.headD "") (nc.headD "")), .shown c, state⟩
    | none =>
      ⟨df1, some (.m3 (dc.headD "") (tc.headD "") (nc.headD "")), .noChart, state⟩
  else if dc.length = 1 ∧ 2 ≤ tc.length ∧ nc.length = 1 then
    match create_chart4 df1
        ⟨some (dc.headD ""), tc.filter (fun c => !(dc.contains c)),
          some (nc.headD "")⟩ state with
    | (some c, st2) =>
      ⟨df1, some (.m4 (dc.headD "") (tc.filter (fun c => !(dc.contains c)))
        (nc.headD "")), .shown c, st2⟩
    | (none, st2) =>
      ⟨df1, some (.m4 (dc.headD "") (tc.filter (fun c => !(dc.contains c)))
        (nc.headD "")), .noChart, st2⟩
  else if dc.length = 0 ∧ tc.length = 1 ∧ nc.length = 2 then
    match create_chart5 df1
        ⟨some (nc.getD 0 ""), some (nc.getD 1 ""), some (tc.headD "")⟩ with
    | some c =>
      ⟨df1, some (.m5 (nc.getD 0 "") (nc.getD 1 "") (tc.headD "")), .shown c, state⟩
    | none =>
      ⟨df1, some (.m5 (nc.getD 0 "") (nc.getD 1 "") (tc.headD "")), .noChart, state⟩
  else if dc.length = 0 ∧ tc.length = 2 ∧ nc.length = 2 then
    match create_chart6 df1
        ⟨some (nc.getD 0 ""), some (nc.getD 1 ""), some (tc.getD 0 ""),
          some (tc.getD 1 "")⟩ with
    | some c =>
      ⟨df1, some (.m6 (nc.getD 0 "") (nc.getD 1 "") (tc.getD 0 "") (tc.getD 1 "")),
        .shown c, state⟩
    | none =>
      ⟨df1, some (.m6 (nc.getD 0 "") (nc.getD 1 "") (tc.getD 0 "") (tc.getD 1 "")),
        .noChart, state⟩
  else if dc.length = 0 ∧ tc.length = 1 ∧ nc.length = 3 then
    match create_chart7 df1
        ⟨some (nc.getD 0 ""), some (nc.getD 1 ""), some (nc.getD 2 ""),
          some (tc.headD "")⟩ with
    | some c =>
      ⟨df1, some (.m7 (nc.getD 0 "") (nc.getD 1 "") (nc.getD 2 "") (tc.headD "")),
        .shown c, state⟩
    | none =>
      ⟨df1, some (.m7 (nc.getD 0 "") (nc.getD 1 "") (nc.getD 2 "") (tc.headD "")),
        .noChart, state⟩
  else if dc.length = 0 ∧ 3 ≤ nc.length ∧ 2 ≤ tc.length then
    match create_chart8 df1
        ⟨some (nc.getD 0 ""), some (nc.getD 1 ""), some (nc.getD 2 ""),
          some (tc.getD 0 ""), some (tc.getD 1 "")⟩ with
    | some c =>
      ⟨df1, some (.m8 (nc.getD 0 "") (nc.getD 1 "") (nc.getD 2 "") (tc.getD 0 "")
        (tc.getD 1 "")), .shown c, state⟩
    | none =>
      ⟨df1, some (.m8 (nc.getD 0 "") (nc.getD 1 "") (nc.getD 2 "") (tc.getD 0 "")
        (tc.getD 1 "")), .noChart, state⟩
  else if dc.length = 0 ∧ nc.length = 1 then
    if (df1.names.filter (fun c => !(nc.contains c))).isEmpty then
      ⟨df1, meta0, .noChart, state⟩
    else
      match create_chart9 df1
          ⟨some (nc.headD ""), (df1.names.filter (fun c => !(nc.contains c))).take 5,
            decide (2 ≤ (df1.names.filter (fun c => !(nc.contains c))).length)⟩
          state with
      | (some c, st2) =>
        ⟨df1, some (.m9 (nc.headD "")
          ((df1.names.filter (fun c => !(nc.contains c))).take 5)
          (decide (2 ≤ (df1.names.filter (fun c => !(nc.contains c))).length))),
          .shown c, st2⟩
      | (none, st2) =>
        ⟨df1, some (.m9 (nc.headD "")
          ((df1.names.filter (fun c => !(nc.contains c))).take 5)
          (decide (2 ≤ (df1.names.filter (fun c => !(nc.contains c))).length))),
          .noChart, st2⟩
  else ⟨df1, meta0, .noChart, state⟩

/-- The fixed role binding of the telco special case (display_chart lines
425-439). -/
def telco_meta : ChartMeta :=
  .m5 "total_tickets" "avg_sentiment" "cell_id_display"

/-- Chart selection and construction on the already-truncated frame:
classify, take the telco override when the three known column names are all
present and its chart builds, otherwise run the counts-based decision
list. -/
def display_core (parse : String → Option Int) (state : SelState)
    (dfd : DataFrame) : DisplayOutcome :=
  if "cell_id_display" ∈ (classify_columns parse dfd).df.names ∧
      "total_tickets" ∈ (classify_columns parse dfd).df.names ∧
      "avg_sentiment" ∈ (classify_columns parse dfd).df.names then
    match create_chart5 (classify_columns parse dfd).df
        ⟨some "total_tickets", some "avg_sentiment", some "cell_id_display"⟩ with
    | some c => ⟨(classify_columns parse dfd).df, some telco_meta, .shown c, state⟩
    | none =>
      rules_chain (classify_columns parse dfd).df
        (classify_columns parse dfd).date_cols
        (classify_columns parse dfd).text_cols
        (classify_columns parse dfd).numeric_cols state (some telco_meta)
  else
    rules_chain (classify_columns parse dfd).df
      (classify_columns parse dfd).date_cols
      (classify_columns parse dfd).text_cols
      (classify_columns parse dfd).numeric_cols state none

/-- display_chart: truncate to the first 5000 rows, then classify, select
and build on the truncated frame only. -/
def display_chart (parse : String → Option Int) (state : SelState)
    (df : DataFrame) : DisplayOutcome :=
  display_core parse state (df.headRows 5000)

/-- Does every view of the chart embed exactly the frame `d`? -/
def chart_data_ok (d : DataFrame) : Chart → Prop
  | .single c => c.data = d
  | .layer a b _ _ => a.data = d ∧ b.data = d

/-! ## Concrete frames and parsers used by witnesses and counterexamples -/

/-- A string-date parser that recognises nothing (the claims that use it do
not depend on string parsing). -/
def parse_none : String → Option Int := fun _ => none

/-- A string-date parser recognising one ISO date, for the boundary tests of
the date-recovery threshold. -/
def parseD : String → Option Int :=
  fun s => if s = "2024-01-01" then some 19723 else none

/-- A single-row frame with one datetime and one numeric column. -/
def df_c1 : DataFrame :=
  ⟨[⟨"d", .datetime, [.date 0]⟩, ⟨"v", .numeric, [.num 5]⟩]⟩

/-- A two-row frame with one datetime and one numeric column. -/
def df_c1w : DataFrame :=
  ⟨[⟨"d", .datetime, [.date 0, .date 1]⟩, ⟨"v", .numeric, [.num 5, .num 7]⟩]⟩

/-- A frame whose column names are exactly the telco triple. -/
def df_telco : DataFrame :=
  ⟨[⟨"cell_id_display", .object, [.str "A"]⟩,
    ⟨"total_tickets", .numeric, [.num 3]⟩,
    ⟨"avg_sentiment", .numeric, [.num 1]⟩]⟩

/-- A frame classified as 1 temporal, 2 categorical, 1 numeric whose column
names include the telco triple. -/
def df_cex3 : DataFrame :=
  ⟨[⟨"d", .datetime, [.date 0, .date 1]⟩,
    ⟨"cell_id_display", .object, [.str "A", .str "B"]⟩,
    ⟨"total_tickets", .object, [.str "X", .str "Y"]⟩,
    ⟨"avg_sentiment", .numeric, [.num 1, .num 2]⟩]⟩

/-- A frame with 1 temporal, 2 categorical and 1 numeric column and no telco
names, for the archetype-4 witness. -/
def df_w3 : DataFrame :=
  ⟨[⟨"d", .datetime, [.date 0, .date 1]⟩,
    ⟨"region", .object, [.str "A", .str "B"]⟩,
    ⟨"product", .object, [.str "X", .str "Y"]⟩,
    ⟨"sales", .numeric, [.num 1, .num 2]⟩]⟩

/-- A single numeric column named `year`: a date-named numeric column whose
values all parse as epoch offsets. -/
def df_year : DataFrame :=
  ⟨[⟨"year", .numeric, [.num 2020]⟩]⟩

/-- Ten-row string column, nine of ten values parseable (exactly 90%). -/
def df_b1 : DataFrame :=
  ⟨[⟨"c", .object, [.str "2024-01-01", .str "2024-01-01", .str "2024-01-01",
    .str "2024-01-01", .str "2024-01-01", .str "2024-01-01", .str "2024-01-01",
    .str "2024-01-01", .str "2024-01-01", .str "oops"]⟩]⟩

/-- Nine-row string column, eight of nine values parseable (below 90%). -/
def df_b2 : DataFrame :=
  ⟨[⟨"c", .object, [.str "2024-01-01", .str "2024-01-01", .str "2024-01-01",
    .str "2024-01-01", .str "2024-01-01", .str "2024-01-01", .str "2024-01-01",
    .str "2024-01-01", .str "oops"]⟩]⟩

/-- A one-column frame without the column `d`, for the missing-binding
counterexample. -/
def df_cex6 : DataFrame :=
  ⟨[⟨"v", .numeric, [.num 1]⟩]⟩

/-- Two numeric columns and a text column, for the emitter comparison. -/
def df_cex2 : DataFrame :=
  ⟨[⟨"a", .numeric, [.num 1]⟩, ⟨"b", .numeric, [.num 2]⟩,
    ⟨"c", .object, [.str "x"]⟩]⟩

/-- Single-row frame holding the four KPI formatting examples. -/
def df_kpi : DataFrame :=
  ⟨[⟨"total_sales", .numeric, [.num 2500000]⟩,
    ⟨"avg_order", .numeric, [.num 3400]⟩,
    ⟨"items", .numeric, [.num 42]⟩,
    ⟨"net_change", .numeric, [.num (-1200000)]⟩]⟩

/-! ## Frame-preservation lemmas -/

theorem headRows_names (df : DataFrame) (n : Nat) :
    (df.headRows n).names = df.names := by
  simp [DataFrame.names, DataFrame.headRows, List.map_map]

theorem headRows_nrows_le (df : DataFrame) (n : Nat) :
    (df.headRows n).nrows ≤ n := by
  cases df with
  | mk cols =>
    cases cols with
    | nil => simp [DataFrame.headRows, DataFrame.nrows]
    | cons c l =>
      simp [DataFrame.headRows, DataFrame.nrows, List.length_take]

theorem headRows_nrows_ne_one (df : DataFrame) (h : df.nrows ≠ 1) :
    (df.headRows 5000).nrows ≠ 1 := by
  cases df with
  | mk cols =>
    cases cols with
    | nil => simp [DataFrame.headRows, DataFrame.nrows]
    | cons c l =>
      simp only [DataFrame.headRows, DataFrame.nrows, List.map_cons,
        List.length_take] at *
      omega

theorem setColParsed_names (df : DataFrame) (name : String)
    (parse : String → Option Int) :
    (df.setColParsed name parse).names = df.names := by
  simp only [DataFrame.names, DataFrame.setColParsed, List.map_map]
  apply List.map_congr_left
  intro c _
  by_cases h : c.name = name <;> simp [h]

theorem setColParsed_nrows (df : DataFrame) (name : String)
    (parse : String → Option Int) :
    (df.setColParsed name parse).nrows = df.nrows := by
  cases df with
  | mk cols =>
    cases cols with
    | nil => rfl
    | cons c l =>
      simp only [DataFrame.setColParsed, DataFrame.nrows, List.map_cons]
      by_cases h : c.name = name <;> simp [h, parsed_values]

theorem promote_first_names (parse : String → Option Int) (df : DataFrame)
    (cands : List String) :
    (promote_first parse df cands).1.names = df.names := by
  induction cands with
  | nil => rfl
  | cons c rest ih =>
    simp only [promote_first]
    cases h : df.findCol c with
    | none => exact ih
    | some col =>
      by_cases hp : date_promotable parse col
      · simp [hp, setColParsed_names]
      · simp [hp, ih]

theorem promote_first_nrows (parse : String → Option Int) (df : DataFrame)
    (cands : List String) :
    (promote_first parse df cands).1.nrows = df.nrows := by
  induction cands with
  | nil => rfl
  | cons c rest ih =>
    simp only [promote_first]
    cases h : df.findCol c with
    | none => exact ih
    | some col =>
      by_cases hp : date_promotable parse col
      · simp [hp, setColParsed_nrows]
      · simp [hp, ih]

theorem classify_names (parse : String → Option Int) (df : DataFrame) :
    (classify_columns parse df).df.names = df.names := by
  simp only [classify_columns]
  split
  · exact promote_first_names parse df _
  · rfl

theorem classify_nrows (parse : String → Option Int) (df : DataFrame) :
    (classify_columns parse df).df.nrows = df.nrows := by
  simp only [classify_columns]
  split
  · exact promote_first_nrows parse df _
  · rfl

theorem findCol_name (df : DataFrame) (n : String) (c : Column)
    (h : df.findCol n = some c) : c.name = n := by
  have := List.find?_some h
  simpa using this

theorem findCol_mem (df : DataFrame) (n : String) (c : Column)
    (h : df.findCol n = some c) : c ∈ df.cols :=
  List.mem_of_find?_eq_some h

theorem setColParsed_findCol_self (df : DataFrame) (n : String)
    (parse : String → Option Int) :
    (df.setColParsed n parse).findCol n =
      (df.findCol n).map (fun c => ⟨c.name, .datetime, parsed_values parse c⟩) := by
  cases df with
  | mk cols =>
    induction cols with
    | nil => rfl
    | cons a l ih =>
      simp only [DataFrame.setColParsed, DataFrame.findCol, List.map_cons,
        List.find?] at *
      by_cases h : a.name = n
      · simp [h]
      · have hb : (a.name == n) = false := beq_false_of_ne h
        simp only [h, if_false, hb]
        simpa [DataFrame.setColParsed, DataFrame.findCol] using ih

/-- Full characterisation of the candidate scan: either nothing qualifies
and the frame is untouched, or the first qualifying candidate is promoted
(and the scan stops there). -/
theorem promote_first_spec (parse : String → Option Int) (df : DataFrame) :
    ∀ cands : List String,
      (promote_first parse df cands = (df, []) ∧
        ∀ c ∈ cands, ∀ col, df.findCol c = some col → ¬ date_promotable parse col) ∨
      (∃ p col, p ∈ cands ∧ df.findCol p = some col ∧ date_promotable parse col ∧
        promote_first parse df cands = (df.setColParsed p parse, [p])) := by
  intro cands
  induction cands with
  | nil => exact Or.inl ⟨rfl, by simp⟩
  | cons c rest ih =>
    cases h : df.findCol c with
    | none =>
      rcases ih with ⟨heq, hall⟩ | ⟨p, col, hmem, hf, hp, heq⟩
      · refine Or.inl ⟨by simp [promote_first, h, heq], ?_⟩
        intro c' hc' col hcol
        rcases List.mem_cons.mp hc' with rfl | hc'
        · rw [h] at hcol; exact absurd hcol (by simp)
        · exact hall c' hc' col hcol
      · exact Or.inr ⟨p, col, List.mem_cons_of_mem _ hmem, hf, hp,
          by simp [promote_first, h, heq]⟩
    | some col =>
      by_cases hp : date_promotable parse col
      · exact Or.inr ⟨c, col, List.mem_cons_self _ _, h, hp,
          by simp [promote_first, h, hp]⟩
      · rcases ih with ⟨heq, hall⟩ | ⟨p, col', hmem, hf, hp', heq⟩
        · refine Or.inl ⟨by simp [promote_first, h, hp, heq], ?_⟩
          intro c' hc' col' hcol
          rcases List.mem_cons.mp hc' with rfl | hc'
          · rw [h] at hcol
            injection hcol with hcol
            exact hcol ▸ hp
          · exact hall c' hc' col' hcol
        · exact Or.inr ⟨p, col', List.mem_cons_of_mem _ hmem, hf, hp',
            by simp [promote_first, h, hp, heq]⟩

/-! ## Session-state lemmas -/

theorem lookup_set_state_self (state : SelState) (k v : String) :
    lookup_state (set_state state k v) k = some v := by
  simp [lookup_state, set_state, List.find?]

theorem lookup_set_state_other (state : SelState) (k k' v : String) (h : k' ≠ k) :
    lookup_state (set_state state k v) k' = lookup_state state k' := by
  have hb : (k == k') = false := by
    simp [Ne.symm h]
  simp [lookup_state, set_state, List.find?, hb]

theorem lookup_init_selector_other (state : SelState) (k k' : String)
    (options : List String) (h : k' ≠ k) :
    lookup_state (init_selector state k options) k' = lookup_state state k' := by
  unfold init_selector
  cases hl : lookup_state state k with
  | none => exact lookup_set_state_other state k k' _ h
  | some v =>
    by_cases hv : v ∈ options
    · simp [hv]
    · simp [hv, lookup_set_state_other state k k' _ h]

theorem round_half_even_intCast (n : ℤ) :
    round_half_even ((n : ℤ) : ℚ) = n := by
  simp only [round_half_even, Int.floor_intCast, sub_self]
  norm_num

theorem chart9_keys_ne (df : DataFrame) :
    "chart9_color_select_" ++ df_fingerprint df ≠
      "chart9_select_" ++ df_fingerprint df := by
  intro h
  have h2 := congrArg String.length h
  rw [String.length_append, String.length_append] at h2
  have h3 : ("chart9_color_select_".length : Nat) = "chart9_select_".length := by
    omega
  exact absurd h3 (by decide)

/-- C9: interactive selector state is initialised to the first valid option
for an unseen key, reset to the first valid option when the stored selection
is stale, and kept unchanged when it is still valid; in particular
create_chart9, run when the stored x-axis selection is no longer among the
current options, leaves the first option stored under its widget key. -/
theorem C9_selector_state :
    (∀ (state : SelState) (key : String) (options : List String), options ≠ [] →
      ((lookup_state state key = none →
          lookup_state (init_selector state key options) key =
            some (options.headD "")) ∧
        (∀ v, lookup_state state key = some v → v ∉ options →
          lookup_state (init_selector state key options) key =
            some (options.headD "")) ∧
        (∀ v, lookup_state state key = some v → v ∈ options →
          init_selector state key options = state))) ∧
    (∀ (df : DataFrame) (cols : Chart9Cols) (state : SelState) (v : String),
      cols.text_cols ≠ [] →
      lookup_state state ("chart9_select_" ++ df_fingerprint df) = some v →
      v ∉ cols.text_cols →
      lookup_state (create_chart9 df cols state).2
          ("chart9_select_" ++ df_fingerprint df) =
        some (cols.text_cols.headD "")) := by
  constructor
  · intro state key options _
    refine ⟨fun h => ?_, fun v h hv => ?_, fun v h hv => ?_⟩
    · simp only [init_selector, h]
      exact lookup_set_state_self state key _
    · simp only [init_selector, h]
      rw [if_neg (by simpa using hv)]
      exact lookup_set_state_self state key _
    · simp only [init_selector, h]
      rw [if_pos (by simpa using hv)]
  · intro df cols state v hne h hv
    have hL : lookup_state
        (init_selector
          (init_selector state ("chart9_select_" ++ df_fingerprint df) cols.text_cols)
          ("chart9_color_select_" ++ df_fingerprint df) cols.text_cols)
        ("chart9_select_" ++ df_fingerprint df) = some (cols.text_cols.headD "") := by
      rw [lookup_init_selector_other _ _ _ _ (Ne.symm (chart9_keys_ne df))]
      simp only [init_selector, h]
      rw [if_neg (by simpa using hv)]
      exact lookup_set_state_self state _ _
    simp only [create_chart9]
    rw [if_neg (by simpa [List.isEmpty_iff] using hne)]
    exact hL

/-- Closed instance of C9_selector_state: a selector initialised to column A
for one frame is reset to the first option of a changed frame whose options
no longer include A. -/
theorem C9_selector_state_witness :
    lookup_state
        (init_selector [("k", "A")] "k" ["B", "C"]) "k" = some "B" :=
  ((C9_selector_state.1 [("k", "A")] "k" ["B", "C"] (by decide)).2.1 "A"
    (by decide) (by decide))

/-- C6 counterexample: a role binding naming the absent column `d` does not
make create_chart1 return the absence sentinel; it returns a chart whose
x-axis encodes the missing column. -/
theorem C6_counterexample :
    create_chart1 df_cex6 ⟨some "d", some "v"⟩ = some (chart1_chart df_cex6 "d" "v") ∧
    "d" ∉ df_cex6.names ∧
    chart1_chart df_cex6 "d" "v" =
      .single ⟨df_cex6, ⟨"bar", none, none⟩,
        some ⟨"d", "T", some "ascending", none, none, none, none⟩,
        some (enc "v" "Q"), none, none, none, ["d", "v"], ""⟩ := by
  exact ⟨rfl, by decide, rfl⟩

/-- C6 amended: each builder is total and returns the absence sentinel
exactly when a required role is missing from the binding dictionary itself
(None role values; for charts 4 and 9, an empty effective text-column
pool) — absence of a bound column name from the table is not detected. -/
theorem C6_amended :
    (∀ df (cols : Chart1Cols), create_chart1 df cols = none ↔
      cols.date_col = none ∨ cols.numeric_col = none) ∧
    (∀ df (cols : Chart2Cols), create_chart2 df cols = none ↔
      cols.date_col = none ∨ cols.num_col1 = none ∨ cols.num_col2 = none) ∧
    (∀ df (cols : Chart3Cols), create_chart3 df cols = none ↔
      cols.date_col = none ∨ cols.text_col = none ∨ cols.numeric_col = none) ∧
    (∀ df (cols : Chart4Cols) state, (create_chart4 df cols state).1 = none ↔
      chart4_text_pool df cols = [] ∨ cols.date_col = none ∨ cols.numeric_col = none) ∧
    (∀ df (cols : Chart5Cols), create_chart5 df cols = none ↔
      cols.num_col1 = none ∨ cols.num_col2 = none ∨ cols.text_col = none) ∧
    (∀ df (cols : Chart6Cols), create_chart6 df cols = none ↔
      cols.num_col1 = none ∨ cols.num_col2 = none ∨
        cols.text_col1 = none ∨ cols.text_col2 = none) ∧
    (∀ df (cols : Chart7Cols), create_chart7 df cols = none ↔
      cols.num_col1 = none ∨ cols.num_col2 = none ∨
        cols.num_col3 = none ∨ cols.text_col = none) ∧
    (∀ df (cols : Chart8Cols), create_chart8 df cols = none ↔
      cols.num_col1 = none ∨ cols.num_col2 = none ∨ cols.num_col3 = none ∨
        cols.text_col1 = none ∨ cols.text_col2 = none) ∧
    (∀ df (cols : Chart9Cols) state, (create_chart9 df cols state).1 = none ↔
      cols.text_cols = []) := by
  refine ⟨?_, ?_, ?_, ?_, ?_, ?_, ?_, ?_, ?_⟩
  · intro df cols
    obtain ⟨d, n⟩ := cols
    cases d <;> cases n <;> simp [create_chart1]
  · intro df cols
    obtain ⟨d, n1, n2⟩ := cols
    cases d <;> cases n1 <;> cases n2 <;> simp [create_chart2]
  · intro df cols
    obtain ⟨d, t, n⟩ := cols
    cases d <;> cases t <;> cases n <;> simp [create_chart3]
  · intro df cols state
    obtain ⟨d, tcs, n⟩ := cols
    by_cases hp : chart4_text_pool df ⟨d, tcs, n⟩ = []
    · simp [create_chart4, hp, List.isEmpty_iff]
    · rw [create_chart4]
      rw [if_neg (by simpa [List.isEmpty_iff] using hp)]
      cases d <;> cases n <;> simp [hp]
  · intro df cols
    obtain ⟨n1, n2, t⟩ := cols
    cases n1 <;> cases n2 <;> cases t <;> simp [create_chart5]
  · intro df cols
    obtain ⟨n1, n2, t1, t2⟩ := cols
    cases n1 <;> cases n2 <;> cases t1 <;> cases t2 <;> simp [create_chart6]
  · intro df cols
    obtain ⟨n1, n2, n3, t⟩ := cols
    cases n1 <;> cases n2 <;> cases n3 <;> cases t <;> simp [create_chart7]
  · intro df cols
    obtain ⟨n1, n2, n3, t1, t2⟩ := cols
    cases n1 <;> cases n2 <;> cases n3 <;> cases t1 <;> cases t2 <;>
      simp [create_chart8]
  · intro df cols state
    obtain ⟨n, tcs, s⟩ := cols
    by_cases hp : tcs = []
    · simp [create_chart9, hp]
    · rw [create_chart9]
      rw [if_neg (by simpa [List.isEmpty_iff] using hp)]
      simp [hp]

/-- C2 counterexample: for archetype 5 with a fully valid specification the
builder's chart and the chart produced by executing the emitted code differ
beyond the title (circle size 100 vs 60 and tooltip order), so the
round-trip mark/encoding equality fails. -/
theorem C2_counterexample :
    (create_chart5 df_cex2 ⟨some "a", some "b", some "c"⟩).isSome = true ∧
    (emitted_chart5 ⟨some "a", some "b", some "c"⟩ df_cex2).isSome = true ∧
    same_mark_enc (create_chart5 df_cex2 ⟨some "a", some "b", some "c"⟩)
      (emitted_chart5 ⟨some "a", some "b", some "c"⟩ df_cex2) = false := by
  exact ⟨rfl, rfl, by decide⟩

/-- C2 amended: for archetype 5 with a valid specification, the built and
emitted charts agree on the x, y and colour encodings and on the circle mark
kind, but the builder uses mark size 100 and tooltip [text, num1, num2]
while the emitted code uses mark size 60, tooltip [num1, num2, text] and a
different title, so the two are never equal modulo title alone. -/
theorem C2_amended (df : DataFrame) (n1 n2 t : String)
    (h1 : n1 ≠ "") (h2 : n2 ≠ "") (h3 : t ≠ "") :
    create_chart5 df ⟨some n1, some n2, some t⟩ =
      some (.single ⟨df, ⟨"circle", none, some 100⟩,
        some (enc n1 "Q"), some (enc n2 "Q"), some (enc t "N"),
        none, none, [t, n1, n2], ""⟩) ∧
    emitted_chart5 ⟨some n1, some n2, some t⟩ df =
      some (.single ⟨df, ⟨"circle", none, some 60⟩,
        some (enc n1 "Q"), some (enc n2 "Q"), some (enc t "N"),
        none, none, [n1, n2, t], "Scatter Plot"⟩) ∧
    same_mark_enc (create_chart5 df ⟨some n1, some n2, some t⟩)
      (emitted_chart5 ⟨some n1, some n2, some t⟩ df) = false := by
  have hb : create_chart5 df ⟨some n1, some n2, some t⟩ =
      some (.single ⟨df, ⟨"circle", none, some 100⟩,
        some (enc n1 "Q"), some (enc n2 "Q"), some (enc t "N"),
        none, none, [t, n1, n2], ""⟩) := rfl
  have he : emitted_chart5 ⟨some n1, some n2, some t⟩ df =
      some (.single ⟨df, ⟨"circle", none, some 60⟩,
        some (enc n1 "Q"), some (enc n2 "Q"), some (enc t "N"),
        none, none, [n1, n2, t], "Scatter Plot"⟩) := by
    simp [emitted_chart5, py_falsy, h1, h2, h3]
  refine ⟨hb, he, ?_⟩
  rw [hb, he]
  simp [same_mark_enc, strip_chart, strip_single]

/-- Closed instance of C2_amended at a concrete frame and binding. -/
theorem C2_amended_witness :
    create_chart5 df_cex2 ⟨some "a", some "b", some "c"⟩ =
      some (.single ⟨df_cex2, ⟨"circle", none, some 100⟩,
        some (enc "a" "Q"), some (enc "b" "Q"), some (enc "c" "N"),
        none, none, ["c", "a", "b"], ""⟩) ∧
    emitted_chart5 ⟨some "a", some "b", some "c"⟩ df_cex2 =
      some (.single ⟨df_cex2, ⟨"circle", none, some 60⟩,
        some (enc "a" "Q"), some (enc "b" "Q"), some (enc "c" "N"),
        none, none, ["a", "b", "c"], "Scatter Plot"⟩) ∧
    same_mark_enc (create_chart5 df_cex2 ⟨some "a", some "b", some "c"⟩)
      (emitted_chart5 ⟨some "a", some "b", some "c"⟩ df_cex2) = false :=
  C2_amended df_cex2 "a" "b" "c" (by decide) (by decide) (by decide)

/-- C8: the KPI tile value formatter selects the M / K / plain format by
magnitude thresholds and produces the specified strings on the four example
values, rendered through render_kpi_tiles on a single-row frame. -/
theorem C8_kpi_format :
    (∀ q : ℚ,
      (1000000 ≤ py_abs q → format_kpi_value q = fmt1 (q / 1000000) ++ "M") ∧
      (py_abs q < 1000000 → 1000 ≤ py_abs q →
        format_kpi_value q = fmt1 (q / 1000) ++ "K") ∧
      (py_abs q < 1000 → format_kpi_value q = fmt1 q)) ∧
    render_kpi_tiles df_kpi ["total_sales", "avg_order", "items", "net_change"] [] =
      some [("total_sales", "2.5M"), ("avg_order", "3.4K"), ("items", "42.0"),
        ("net_change", "-1.2M")] := by
  constructor
  · intro q
    refine ⟨fun h => ?_, fun h h' => ?_, fun h => ?_⟩
    · simp only [format_kpi_value]
      rw [if_pos h]
    · simp only [format_kpi_value]
      rw [if_neg (not_le.mpr h), if_pos h']
    · simp only [format_kpi_value]
      rw [if_neg (not_le.mpr (lt_trans h (by norm_num))),
        if_neg (not_le.mpr h)]
  · have f1 : format_kpi_value 2500000 = "2.5M" := by
      simp only [format_kpi_value]
      rw [if_pos (by norm_num [py_abs])]
      simp only [fmt1]
      rw [show (10 : ℚ) * (2500000 / 1000000) = ((25 : ℤ) : ℚ) by norm_num,
        round_half_even_intCast]
      decide
    have f2 : format_kpi_value 3400 = "3.4K" := by
      simp only [format_kpi_value]
      rw [if_neg (by norm_num [py_abs]), if_pos (by norm_num [py_abs])]
      simp only [fmt1]
      rw [show (10 : ℚ) * (3400 / 1000) = ((34 : ℤ) : ℚ) by norm_num,
        round_half_even_intCast]
      decide
    have f3 : format_kpi_value 42 = "42.0" := by
      simp only [format_kpi_value]
      rw [if_neg (by norm_num [py_abs]), if_neg (by norm_num [py_abs])]
      simp only [fmt1]
      rw [show (10 : ℚ) * 42 = ((420 : ℤ) : ℚ) by norm_num,
        round_half_even_intCast]
      decide
    have f4 : format_kpi_value (-1200000) = "-1.2M" := by
      simp only [format_kpi_value]
      rw [if_pos (by norm_num [py_abs])]
      simp only [fmt1]
      rw [show (10 : ℚ) * (-1200000 / 1000000) = ((-12 : ℤ) : ℚ) by norm_num,
        round_half_even_intCast]
      decide
    simp [render_kpi_tiles, tile_of, df_kpi, label_for, DataFrame.findCol,
      List.find?, List.mapM.loop, f1, f2, f3, f4]

/-- Closed instance of C8_kpi_format: the million-threshold clause applied
at the example value 2,500,000. -/
theorem C8_kpi_format_witness :
    format_kpi_value 2500000 = fmt1 ((2500000 : ℚ) / 1000000) ++ "M" :=
  (C8_kpi_format.1 2500000).1 (by norm_num [py_abs])

/-- C4: a table whose column-name set is exactly the known telco triple is
always routed to archetype 5 with the fixed binding num_col1=total_tickets,
num_col2=avg_sentiment, text_col=cell_id_display, before any counts-based
rule (including the single-row KPI rule) is consulted. -/
theorem C4_telco_override (parse : String → Option Int) (state : SelState)
    (df : DataFrame)
    (h : List.Perm df.names ["cell_id_display", "total_tickets", "avg_sentiment"]) :
    display_chart parse state df =
      ⟨(classify_columns parse (df.headRows 5000)).df, some telco_meta,
        .shown (chart5_chart (classify_columns parse (df.headRows 5000)).df
          "total_tickets" "avg_sentiment" "cell_id_display"), state⟩ := by
  have hn : (classify_columns parse (df.headRows 5000)).df.names = df.names := by
    rw [classify_names, headRows_names]
  have h1 : "cell_id_display" ∈
      (classify_columns parse (df.headRows 5000)).df.names := by
    rw [hn]
    exact h.mem_iff.mpr (by simp)
  have h2 : "total_tickets" ∈
      (classify_columns parse (df.headRows 5000)).df.names := by
    rw [hn]
    exact h.mem_iff.mpr (by simp)
  have h3 : "avg_sentiment" ∈
      (classify_columns parse (df.headRows 5000)).df.names := by
    rw [hn]
    exact h.mem_iff.mpr (by simp)
  simp only [display_chart, display_core, create_chart5]
  rw [if_pos ⟨h1, h2, h3⟩]

/-- Closed instance of C4_telco_override on a concrete telco-shaped frame
(which, being single-row with two numeric columns, would otherwise hit the
KPI rule). -/
theorem C4_telco_override_witness :
    display_chart parse_none [] df_telco =
      ⟨(classify_columns parse_none (df_telco.headRows 5000)).df, some telco_meta,
        .shown (chart5_chart (classify_columns parse_none (df_telco.headRows 5000)).df
          "total_tickets" "avg_sentiment" "cell_id_display"), []⟩ :=
  C4_telco_override parse_none [] df_telco (by decide)

/-- C1 counterexample: a single-row table classified as exactly one temporal,
zero categorical and one numeric column is routed to the KPI-tile rule
(archetype 10), not to archetype 1, so archetype 1 is not chosen regardless
of row count. -/
theorem C1_counterexample :
    (classify_columns parse_none (df_c1.headRows 5000)).date_cols = ["d"] ∧
    (classify_columns parse_none (df_c1.headRows 5000)).text_cols = [] ∧
    (classify_columns parse_none (df_c1.headRows 5000)).numeric_cols = ["v"] ∧
    (display_chart parse_none [] df_c1).meta = some (.m10 ["v"]) ∧
    (display_chart parse_none [] df_c1).meta ≠ some (.m1 "d" "v") := by
  refine ⟨by decide, by decide, by decide, by decide, by decide⟩

/-- C1 amended: for a table classified as one temporal, zero categorical and
one numeric column, rule selection chooses archetype 1 bound to those two
columns provided the displayed row count is not 1 (otherwise the KPI rule
fires first) and the telco column triple is not contained in the column
names (otherwise the special-case override fires first). -/
theorem C1_amended (parse : String → Option Int) (state : SelState)
    (df : DataFrame) (d n : String)
    (hd : (classify_columns parse (df.headRows 5000)).date_cols = [d])
    (ht : (classify_columns parse (df.headRows 5000)).text_cols = [])
    (hn : (classify_columns parse (df.headRows 5000)).numeric_cols = [n])
    (hr : df.nrows ≠ 1)
    (htel : ¬("cell_id_display" ∈ df.names ∧ "total_tickets" ∈ df.names ∧
      "avg_sentiment" ∈ df.names)) :
    display_chart parse state df =
      ⟨(classify_columns parse (df.headRows 5000)).df, some (.m1 d n),
        .shown (chart1_chart
          (classify_columns parse (df.headRows 5000)).df d n), state⟩ := by
  have hnames : (classify_columns parse (df.headRows 5000)).df.names = df.names := by
    rw [classify_names, headRows_names]
  have htel' : ¬("cell_id_display" ∈
        (classify_columns parse (df.headRows 5000)).df.names ∧
      "total_tickets" ∈ (classify_columns parse (df.headRows 5000)).df.names ∧
      "avg_sentiment" ∈ (classify_columns parse (df.headRows 5000)).df.names) := by
    rw [hnames]
    exact htel
  have hrows : ¬((classify_columns parse (df.headRows 5000)).df.nrows = 1 ∧
      1 ≤ (classify_columns parse (df.headRows 5000)).numeric_cols.length ∧
      (classify_columns parse (df.headRows 5000)).numeric_cols.length ≤ 4 ∧
      (classify_columns parse (df.headRows 5000)).text_cols.length ≤ 1) := by
    intro hc
    exact headRows_nrows_ne_one df hr (by rw [← classify_nrows parse]; exact hc.1)
  simp only [display_chart, display_core, rules_chain]
  rw [if_neg htel', if_neg hrows,
    if_pos ⟨by rw [hd]; rfl, by rw [ht]; rfl, by rw [hn]; rfl⟩]
  simp [create_chart1, hd, hn]

/-- Closed instance of C1_amended on a two-row frame with one datetime and
one numeric column. -/
theorem C1_amended_witness :
    display_chart parse_none [] df_c1w =
      ⟨(classify_columns parse_none (df_c1w.headRows 5000)).df, some (.m1 "d" "v"),
        .shown (chart1_chart
          (classify_columns parse_none (df_c1w.headRows 5000)).df "d" "v"), []⟩ :=
  C1_amended parse_none [] df_c1w "d" "v" (by decide) (by decide) (by decide)
    (by decide) (by decide)

theorem mem_text_not_date (parse : String → Option Int) (df : DataFrame)
    (a : String) (ha : a ∈ (classify_columns parse df).text_cols) :
    ¬ (classify_columns parse df).date_cols.contains a := by
  simp only [classify_columns] at ha ⊢
  obtain ⟨col, hmem, rfl⟩ := List.mem_map.mp ha
  have hp := (List.mem_filter.mp hmem).2
  simp only [Bool.and_eq_true, Bool.not_eq_true'] at hp
  intro hcontra
  rw [hp.1.2] at hcontra
  exact Bool.false_ne_true hcontra

theorem classify_text_filter (parse : String → Option Int) (df : DataFrame) :
    (classify_columns parse df).text_cols.filter
      (fun c => !((classify_columns parse df).date_cols.contains c)) =
      (classify_columns parse df).text_cols := by
  apply List.filter_eq_self.mpr
  intro a ha
  simp only [Bool.not_eq_true']
  exact Bool.of_not_eq_true (by simpa using mem_text_not_date parse df a ha)

/-- C3 counterexample: a table classified as 1 temporal, 2 categorical and 1
numeric column whose names happen to include the telco triple is captured by
the special-case override (archetype 5), so archetype 4 is not chosen for
every such table. -/
theorem C3_counterexample :
    (classify_columns parse_none (df_cex3.headRows 5000)).date_cols = ["d"] ∧
    (classify_columns parse_none (df_cex3.headRows 5000)).text_cols =
      ["cell_id_display", "total_tickets"] ∧
    (classify_columns parse_none (df_cex3.headRows 5000)).numeric_cols =
      ["avg_sentiment"] ∧
    (display_chart parse_none [] df_cex3).meta = some telco_meta ∧
    (display_chart parse_none [] df_cex3).meta ≠
      some (.m4 "d" ["cell_id_display", "total_tickets"] "avg_sentiment") := by
  refine ⟨by decide, by decide, by decide, by decide, by decide⟩

/-- C3 amended: for a table classified as 1 temporal, N >= 2 categorical and
1 numeric column, rule selection chooses archetype 4 with the binding's
categorical list equal to the full categorical list (length exactly N),
provided the telco column triple is not contained in the column names
(otherwise the special-case override fires first). -/
theorem C3_amended (parse : String → Option Int) (state : SelState)
    (df : DataFrame) (d n : String)
    (hd : (classify_columns parse (df.headRows 5000)).date_cols = [d])
    (hn : (classify_columns parse (df.headRows 5000)).numeric_cols = [n])
    (htl : 2 ≤ (classify_columns parse (df.headRows 5000)).text_cols.length)
    (htel : ¬("cell_id_display" ∈ df.names ∧ "total_tickets" ∈ df.names ∧
      "avg_sentiment" ∈ df.names)) :
    (display_chart parse state df).meta =
      some (.m4 d (classify_columns parse (df.headRows 5000)).text_cols n) := by
  have hnames : (classify_columns parse (df.headRows 5000)).df.names = df.names := by
    rw [classify_names, headRows_names]
  have htel' : ¬("cell_id_display" ∈
        (classify_columns parse (df.headRows 5000)).df.names ∧
      "total_tickets" ∈ (classify_columns parse (df.headRows 5000)).df.names ∧
      "avg_sentiment" ∈ (classify_columns parse (df.headRows 5000)).df.names) := by
    rw [hnames]
    exact htel
  have htcne : (classify_columns parse (df.headRows 5000)).text_cols ≠ [] := by
    intro hnil
    rw [hnil] at htl
    simp at htl
  have hE : (classify_columns parse (df.headRows 5000)).text_cols.isEmpty = false := by
    cases hq : (classify_columns parse (df.headRows 5000)).text_cols with
    | nil => exact absurd hq htcne
    | cons a l => rfl
  simp only [display_chart, display_core, rules_chain]
  rw [if_neg htel',
    if_neg (fun hc => by have := hc.2.2.2; omega),
    if_neg (fun hc => by have := hc.2.1; omega),
    if_neg (fun hc => by have := hc.2.1; omega),
    if_neg (fun hc => by have := hc.2.1; omega),
    if_pos ⟨by rw [hd]; rfl, htl, by rw [hn]; rfl⟩,
    classify_text_filter parse (df.headRows 5000)]
  simp [create_chart4, chart4_text_pool, hE, hd, hn]

/-- Closed instance of C3_amended on a frame with one datetime, two
categorical and one numeric column and no telco names. -/
theorem C3_amended_witness :
    (display_chart parse_none [] df_w3).meta =
      some (.m4 "d" (classify_columns parse_none (df_w3.headRows 5000)).text_cols
        "sales") :=
  C3_amended parse_none [] df_w3 "d" "sales" (by decide) (by decide) (by decide)
    (by decide)

theorem classify_promo (parse : String → Option Int) (df : DataFrame)
    (hdt : ∀ c ∈ df.cols, ¬ is_datetime_dtype c.dtype) :
    (classify_columns parse df).date_cols =
      (promote_first parse df (potential_date_cols df)).2 ∧
    (classify_columns parse df).df =
      (promote_first parse df (potential_date_cols df)).1 := by
  have hfil : df.cols.filter (fun c => is_datetime_dtype c.dtype) = [] := by
    rw [List.filter_eq_nil_iff]
    intro c hc
    simpa using hdt c hc
  constructor <;> simp [classify_columns, hfil]

/-- C5: when no column has a declared timestamp dtype, at most one candidate
column is promoted per classification; a promoted column is a candidate that
clears the 90% non-null parse threshold and has its stored values replaced
in place by the parsed dates; whenever some candidate clears the threshold a
promotion does occur; and at the boundary, 9 of 10 parseable values promote
while 8 of 9 do not. -/
theorem C5_date_recovery :
    (∀ (parse : String → Option Int) (df : DataFrame),
      (∀ c ∈ df.cols, ¬ is_datetime_dtype c.dtype) →
      ((classify_columns parse df).date_cols.length ≤ 1 ∧
        (∀ d, (classify_columns parse df).date_cols = [d] →
          ∃ col, df.findCol d = some col ∧ d ∈ potential_date_cols df ∧
            date_promotable parse col ∧
            (classify_columns parse df).df.findCol d =
              some ⟨col.name, .datetime, parsed_values parse col⟩) ∧
        ((∃ c ∈ potential_date_cols df, ∃ col, df.findCol c = some col ∧
            date_promotable parse col) →
          (classify_columns parse df).date_cols ≠ []))) ∧
    classify_columns parseD df_b1 =
      ⟨⟨[⟨"c", .datetime, [.date 19723, .date 19723, .date 19723, .date 19723,
        .date 19723, .date 19723, .date 19723, .date 19723, .date 19723,
        .null]⟩]⟩, ["c"], [], []⟩ ∧
    classify_columns parseD df_b2 = ⟨df_b2, [], ["c"], []⟩ := by
  refine ⟨?_, by decide, by decide⟩
  intro parse df hdt
  obtain ⟨hdc, hdf⟩ := classify_promo parse df hdt
  rcases promote_first_spec parse df (potential_date_cols df) with
    ⟨heq, hall⟩ | ⟨p, col, hmem, hf, hp, heq⟩
  · rw [hdc, heq]
    refine ⟨by simp, fun d hd => by simp at hd, fun hex => ?_⟩
    obtain ⟨c, hc, col, hfc, hpc⟩ := hex
    exact absurd hpc (hall c hc col hfc)
  · rw [hdc, heq]
    refine ⟨by simp, fun d hd => ?_, fun _ => by simp⟩
    have hd' : d = p := by
      simpa using hd.symm
    subst hd'
    refine ⟨col, hf, hmem, hp, ?_⟩
    rw [hdf, heq]
    rw [setColParsed_findCol_self df d parse, hf]
    rfl

/-- Closed instance of C5_date_recovery's universal part at the 9-of-10
boundary frame. -/
theorem C5_date_recovery_witness :
    (classify_columns parseD df_b1).date_cols.length ≤ 1 :=
  ((C5_date_recovery.1 parseD df_b1 (by decide)).1)

/-- C7 counterexample: a numeric column named `year` (all values parse as
epoch offsets) is date-promoted while remaining in the numeric list, so the
three lists are not pairwise disjoint and do not partition the columns. -/
theorem C7_counterexample :
    (classify_columns parse_none df_year).numeric_cols = ["year"] ∧
    (classify_columns parse_none df_year).date_cols = ["year"] ∧
    (classify_columns parse_none df_year).text_cols = [] ∧
    "year" ∈ (classify_columns parse_none df_year).numeric_cols ∧
    "year" ∈ (classify_columns parse_none df_year).date_cols := by
  refine ⟨by decide, by decide, by decide, by decide, by decide⟩

theorem classify_numeric_eq (parse : String → Option Int) (df : DataFrame) :
    (classify_columns parse df).numeric_cols =
      (df.cols.filter (fun c => is_numeric_dtype c.dtype)).map (·.name) := rfl

theorem classify_date_eq (parse : String → Option Int) (df : DataFrame) :
    (classify_columns parse df).date_cols =
      (if ((df.cols.filter (fun c => is_datetime_dtype c.dtype)).map (·.name)).isEmpty
        then promote_first parse df (potential_date_cols df)
        else (df,
          (df.cols.filter (fun c => is_datetime_dtype c.dtype)).map (·.name))).2 := rfl

theorem classify_df_eq (parse : String → Option Int) (df : DataFrame) :
    (classify_columns parse df).df =
      (if ((df.cols.filter (fun c => is_datetime_dtype c.dtype)).map (·.name)).isEmpty
        then promote_first parse df (potential_date_cols df)
        else (df,
          (df.cols.filter (fun c => is_datetime_dtype c.dtype)).map (·.name))).1 := rfl

theorem classify_text_eq (parse : String → Option Int) (df : DataFrame) :
    (classify_columns parse df).text_cols =
      ((classify_columns parse df).df.cols.filter (fun c =>
        !((classify_columns parse df).numeric_cols.contains c.name) &&
        !((classify_columns parse df).date_cols.contains c.name) &&
        is_str_or_object_dtype c.dtype)).map (·.name) := rfl

theorem mem_map_name_filter (l : List Column) (p : Column → Bool) (x : String) :
    x ∈ (l.filter p).map (·.name) ↔ ∃ c, c ∈ l ∧ p c = true ∧ c.name = x := by
  simp only [List.mem_map, List.mem_filter]
  constructor
  · rintro ⟨c, ⟨hc, hp⟩, rfl⟩
    exact ⟨c, hc, hp, rfl⟩
  · rintro ⟨c, hc, hp, rfl⟩
    exact ⟨c, ⟨hc, hp⟩, rfl⟩

theorem mem_text_not_numeric (parse : String → Option Int) (df : DataFrame)
    (a : String) (ha : a ∈ (classify_columns parse df).text_cols) :
    ¬ (classify_columns parse df).numeric_cols.contains a := by
  rw [classify_text_eq] at ha
  obtain ⟨col, _, hp, rfl⟩ := (mem_map_name_filter _ _ _).mp ha
  simp only [Bool.and_eq_true, Bool.not_eq_true'] at hp
  intro hcontra
  rw [hp.1.1] at hcontra
  exact Bool.false_ne_true hcontra

theorem mem_text_strobj (parse : String → Option Int) (df : DataFrame)
    (a : String) (ha : a ∈ (classify_columns parse df).text_cols) :
    ∃ c, c ∈ (classify_columns parse df).df.cols ∧
      is_str_or_object_dtype c.dtype = true ∧ c.name = a := by
  rw [classify_text_eq] at ha
  obtain ⟨col, hmem, hp, rfl⟩ := (mem_map_name_filter _ _ _).mp ha
  simp only [Bool.and_eq_true] at hp
  exact ⟨col, hmem, hp.2, rfl⟩

/-- C7 amended: for tables whose columns all carry numeric, datetime or
string/object dtypes, whose column names are distinct, and in which no
numeric column bears a date-related name (so that no numeric column can be
date-promoted), the classifier's three lists are pairwise disjoint and
cover every column exactly once. -/
theorem C7_amended (parse : String → Option Int) (df : DataFrame)
    (hnodup : df.names.Nodup)
    (hdty : ∀ c ∈ df.cols, c.dtype ≠ Dtype.other)
    (hnum : ∀ c ∈ df.cols, c.dtype = Dtype.numeric →
      name_has_date_term c.name = false) :
    (List.Disjoint (classify_columns parse df).date_cols
        (classify_columns parse df).numeric_cols ∧
      List.Disjoint (classify_columns parse df).date_cols
        (classify_columns parse df).text_cols ∧
      List.Disjoint (classify_columns parse df).numeric_cols
        (classify_columns parse df).text_cols) ∧
    (∀ x ∈ df.names, x ∈ (classify_columns parse df).date_cols ∨
      x ∈ (classify_columns parse df).numeric_cols ∨
      x ∈ (classify_columns parse df).text_cols) := by
  have huniq : ∀ c1 ∈ df.cols, ∀ c2 ∈ df.cols, c1.name = c2.name → c1 = c2 := by
    intro c1 h1 c2 h2 he
    exact List.inj_on_of_nodup_map (by simpa [DataFrame.names] using hnodup) h1 h2 he
  have hnum_mem : ∀ x, x ∈ (classify_columns parse df).numeric_cols ↔
      ∃ c, c ∈ df.cols ∧ is_numeric_dtype c.dtype = true ∧ c.name = x := by
    intro x
    rw [classify_numeric_eq]
    exact mem_map_name_filter _ _ _
  have hnc : ∀ c : Column, c ∈ df.cols → ¬ is_numeric_dtype c.dtype = true →
      (classify_columns parse df).numeric_cols.contains c.name = false := by
    intro c hc hcn
    cases hcont : (classify_columns parse df).numeric_cols.contains c.name with
    | false => rfl
    | true =>
      exfalso
      have hm := List.mem_of_elem_eq_true hcont
      obtain ⟨c', hc', hnumt, hname⟩ := (hnum_mem _).mp hm
      have he := huniq c' hc' c hc hname
      rw [he] at hnumt
      exact hcn hnumt
  have hdtext : List.Disjoint (classify_columns parse df).date_cols
      (classify_columns parse df).text_cols := by
    intro a ha hb
    exact mem_text_not_date parse df a hb (List.elem_eq_true_of_mem ha)
  have hntext : List.Disjoint (classify_columns parse df).numeric_cols
      (classify_columns parse df).text_cols := by
    intro a ha hb
    exact mem_text_not_numeric parse df a hb (List.elem_eq_true_of_mem ha)
  by_cases hdtemp : ∀ c ∈ df.cols, ¬ is_datetime_dtype c.dtype
  · obtain ⟨hdc, hdf⟩ := classify_promo parse df hdtemp
    rcases promote_first_spec parse df (potential_date_cols df) with
      ⟨heq, _⟩ | ⟨p, colp, hmem, hfp, hpp, heq⟩
    · rw [heq] at hdc hdf
      refine ⟨⟨?_, hdtext, hntext⟩, ?_⟩
      · intro a ha _
        rw [hdc] at ha
        simp at ha
      · intro x hx
        simp only [DataFrame.names, List.mem_map] at hx
        obtain ⟨c, hc, rfl⟩ := hx
        cases hdtc : c.dtype with
        | numeric =>
          exact Or.inr (Or.inl ((hnum_mem _).mpr
            ⟨c, hc, by simp [is_numeric_dtype, hdtc], rfl⟩))
        | datetime =>
          exact absurd (by simp [is_datetime_dtype, hdtc]) (hdtemp c hc)
        | other => exact absurd hdtc (hdty c hc)
        | object =>
          refine Or.inr (Or.inr ?_)
          rw [classify_text_eq]
          refine (mem_map_name_filter _ _ _).mpr ⟨c, ?_, ?_, rfl⟩
          · rw [hdf]
            exact hc
          · have h1 := hnc c hc (by simp [is_numeric_dtype, hdtc])
            rw [h1, hdc]
            simp [is_str_or_object_dtype, hdtc]
    · have hpname := findCol_name df p colp hfp
      have hpmemc := findCol_mem df p colp hfp
      rw [heq] at hdc hdf
      have hcolp : is_str_or_object_dtype colp.dtype = true := by
        have hterm : name_has_date_term colp.name = true ∨
            is_str_or_object_dtype colp.dtype = true := by
          simp only [potential_date_cols] at hmem
          rcases List.mem_append.mp hmem with hl | hr
          · obtain ⟨c, hc, hpt, hcn⟩ := (mem_map_name_filter _ _ _).mp hl
            have he := huniq c hc colp hpmemc (by rw [hcn, hpname])
            rw [he] at hpt
            exact Or.inl hpt
          · obtain ⟨c, hc, hpt, hcn⟩ := (mem_map_name_filter _ _ _).mp hr
            have he := huniq c hc colp hpmemc (by rw [hcn, hpname])
            rw [he] at hpt
            simp only [Bool.and_eq_true] at hpt
            exact Or.inr hpt.2
        cases hdtc : colp.dtype with
        | numeric =>
          rcases hterm with hl | hr
          · rw [hnum colp hpmemc hdtc] at hl
            exact absurd hl (by simp)
          · rw [hdtc] at hr
            simp [is_str_or_object_dtype] at hr
        | datetime =>
          exact absurd (by simp [is_datetime_dtype, hdtc]) (hdtemp colp hpmemc)
        | other => exact absurd hdtc (hdty colp hpmemc)
        | object => simp [is_str_or_object_dtype]
      refine ⟨⟨?_, hdtext, hntext⟩, ?_⟩
      · intro a ha hb
        rw [hdc] at ha
        have hap : a = p := by simpa using ha
        subst hap
        obtain ⟨cn, hcn, hnumt, hname⟩ := (hnum_mem _).mp hb
        have he := huniq cn hcn colp hpmemc (by rw [hname, hpname])
        rw [he] at hnumt
        cases hdtc : colp.dtype <;> rw [hdtc] at hnumt hcolp <;>
          simp_all [is_numeric_dtype, is_str_or_object_dtype]
      · intro x hx
        simp only [DataFrame.names, List.mem_map] at hx
        obtain ⟨c, hc, rfl⟩ := hx
        cases hdtc : c.dtype with
        | numeric =>
          exact Or.inr (Or.inl ((hnum_mem _).mpr
            ⟨c, hc, by simp [is_numeric_dtype, hdtc], rfl⟩))
        | datetime =>
          exact absurd (by simp [is_datetime_dtype, hdtc]) (hdtemp c hc)
        | other => exact absurd hdtc (hdty c hc)
        | object =>
          by_cases hxp : c.name = p
          · refine Or.inl ?_
            rw [hdc, hxp]
            simp
          · refine Or.inr (Or.inr ?_)
            rw [classify_text_eq]
            refine (mem_map_name_filter _ _ _).mpr ⟨c, ?_, ?_, rfl⟩
            · rw [hdf]
              simp only [DataFrame.setColParsed]
              have hmm := List.mem_map_of_mem
                (fun c : Column => if c.name = p then
                  (⟨c.name, Dtype.datetime, parsed_values parse c⟩ : Column) else c) hc
              simpa [hxp] using hmm
            · have h1 := hnc c hc (by simp [is_numeric_dtype, hdtc])
              rw [h1, hdc]
              simp [is_str_or_object_dtype, hdtc, List.contains, hxp]
  · push_neg at hdtemp
    obtain ⟨c0, hc0, hc0d⟩ := hdtemp
    have hc0d' : is_datetime_dtype c0.dtype = true := by
      simpa using hc0d
    have hfne : ((df.cols.filter (fun c => is_datetime_dtype c.dtype)).map
        (fun c => c.name)).isEmpty = false := by
      have hmm : c0.name ∈ (df.cols.filter (fun c => is_datetime_dtype c.dtype)).map
          (fun c => c.name) :=
        List.mem_map_of_mem _ (List.mem_filter.mpr ⟨hc0, hc0d'⟩)
      cases hmap : (df.cols.filter (fun c => is_datetime_dtype c.dtype)).map
          (fun c => c.name) with
      | nil => rw [hmap] at hmm; simp at hmm
      | cons a l => rfl
    have hdateC : (classify_columns parse df).date_cols =
        (df.cols.filter (fun c => is_datetime_dtype c.dtype)).map (·.name) := by
      rw [classify_date_eq, hfne]
      simp
    have hdfC : (classify_columns parse df).df = df := by
      rw [classify_df_eq, hfne]
      simp
    have hdate_mem : ∀ x, x ∈ (classify_columns parse df).date_cols ↔
        ∃ c, c ∈ df.cols ∧ is_datetime_dtype c.dtype = true ∧ c.name = x := by
      intro x
      rw [hdateC]
      exact mem_map_name_filter _ _ _
    refine ⟨⟨?_, hdtext, hntext⟩, ?_⟩
    · intro a ha hb
      obtain ⟨cd, hcd, hdt, hdn⟩ := (hdate_mem _).mp ha
      obtain ⟨cn, hcn, hnt, hnn⟩ := (hnum_mem _).mp hb
      have he := huniq cd hcd cn hcn (by rw [hdn, hnn])
      rw [he] at hdt
      cases hdtc : cn.dtype <;> rw [hdtc] at hdt hnt <;>
        simp_all [is_numeric_dtype, is_datetime_dtype]
    · intro x hx
      simp only [DataFrame.names, List.mem_map] at hx
      obtain ⟨c, hc, rfl⟩ := hx
      cases hdtc : c.dtype with
      | numeric =>
        exact Or.inr (Or.inl ((hnum_mem _).mpr
          ⟨c, hc, by simp [is_numeric_dtype, hdtc], rfl⟩))
      | datetime =>
        exact Or.inl ((hdate_mem _).mpr ⟨c, hc, by simp [is_datetime_dtype, hdtc], rfl⟩)
      | other => exact absurd hdtc (hdty c hc)
      | object =>
        refine Or.inr (Or.inr ?_)
        rw [classify_text_eq]
        refine (mem_map_name_filter _ _ _).mpr ⟨c, ?_, ?_, rfl⟩
        · rw [hdfC]
          exact hc
        · have h1 := hnc c hc (by simp [is_numeric_dtype, hdtc])
          have h2 : (classify_columns parse df).date_cols.contains c.name = false := by
            cases hcont : (classify_columns parse df).date_cols.contains c.name with
            | false => rfl
            | true =>
              exfalso
              have hm := List.mem_of_elem_eq_true hcont
              obtain ⟨cd, hcd, hdt, hdn⟩ := (hdate_mem _).mp hm
              have he := huniq cd hcd c hc hdn
              rw [he, hdtc] at hdt
              simp [is_datetime_dtype] at hdt
          rw [h1, h2]
          simp [is_str_or_object_dtype, hdtc]

/-- Closed instance of C7_amended on a one-column frame satisfying its
dtype and naming hypotheses. -/
theorem C7_amended_witness :
    (List.Disjoint (classify_columns parse_none df_cex6).date_cols
        (classify_columns parse_none df_cex6).numeric_cols ∧
      List.Disjoint (classify_columns parse_none df_cex6).date_cols
        (classify_columns parse_none df_cex6).text_cols ∧
      List.Disjoint (classify_columns parse_none df_cex6).numeric_cols
        (classify_columns parse_none df_cex6).text_cols) ∧
    (∀ x ∈ df_cex6.names, x ∈ (classify_columns parse_none df_cex6).date_cols ∨
      x ∈ (classify_columns parse_none df_cex6).numeric_cols ∨
      x ∈ (classify_columns parse_none df_cex6).text_cols) :=
  C7_amended parse_none df_cex6 (by decide) (by decide) (by decide)

theorem create_chart1_data (df : DataFrame) (cols : Chart1Cols) (c : Chart)
    (h : create_chart1 df cols = some c) : chart_data_ok df c := by
  obtain ⟨d, n⟩ := cols
  cases d with
  | none => simp [create_chart1] at h
  | some dv =>
    cases n with
    | none => simp [create_chart1] at h
    | some nv =>
      simp only [create_chart1, Option.some.injEq] at h
      subst h
      simp [chart1_chart, chart_data_ok]

theorem create_chart2_data (df : DataFrame) (cols : Chart2Cols) (c : Chart)
    (h : create_chart2 df cols = some c) : chart_data_ok df c := by
  obtain ⟨d, n1, n2⟩ := cols
  cases d <;> cases n1 <;> cases n2 <;>
    first
      | exact Option.noConfusion h
      | (obtain rfl := Option.some.inj h; exact ⟨rfl, rfl⟩)

theorem create_chart3_data (df : DataFrame) (cols : Chart3Cols) (c : Chart)
    (h : create_chart3 df cols = some c) : chart_data_ok df c := by
  obtain ⟨d, t, n⟩ := cols
  cases d <;> cases t <;> cases n <;>
    first
      | exact Option.noConfusion h
      | (obtain rfl := Option.some.inj h; rfl)

theorem create_chart4_data (df : DataFrame) (cols : Chart4Cols)
    (state : SelState) (c : Chart)
    (h : (create_chart4 df cols state).1 = some c) : chart_data_ok df c := by
  rw [create_chart4] at h
  by_cases hp : (chart4_text_pool df cols).isEmpty
  · rw [if_pos hp] at h
    exact absurd h (by simp)
  · rw [if_neg hp] at h
    obtain ⟨d, tcs, n⟩ := cols
    cases d <;> cases n <;>
      first
        | exact Option.noConfusion h
        | (obtain rfl := Option.some.inj h; rfl)

theorem create_chart5_data (df : DataFrame) (cols : Chart5Cols) (c : Chart)
    (h : create_chart5 df cols = some c) : chart_data_ok df c := by
  obtain ⟨n1, n2, t⟩ := cols
  cases n1 <;> cases n2 <;> cases t <;>
    first
      | exact Option.noConfusion h
      | (obtain rfl := Option.some.inj h; rfl)

theorem create_chart6_data (df : DataFrame) (cols : Chart6Cols) (c : Chart)
    (h : create_chart6 df cols = some c) : chart_data_ok df c := by
  obtain ⟨n1, n2, t1, t2⟩ := cols
  cases n1 <;> cases n2 <;> cases t1 <;> cases t2 <;>
    first
      | exact Option.noConfusion h
      | (obtain rfl := Option.some.inj h; rfl)

theorem create_chart7_data (df : DataFrame) (cols : Chart7Cols) (c : Chart)
    (h : create_chart7 df cols = some c) : chart_data_ok df c := by
  obtain ⟨n1, n2, n3, t⟩ := cols
  cases n1 <;> cases n2 <;> cases n3 <;> cases t <;>
    first
      | exact Option.noConfusion h
      | (obtain rfl := Option.some.inj h; rfl)

theorem create_chart8_data (df : DataFrame) (cols : Chart8Cols) (c : Chart)
    (h : create_chart8 df cols = some c) : chart_data_ok df c := by
  obtain ⟨n1, n2, n3, t1, t2⟩ := cols
  cases n1 <;> cases n2 <;> cases n3 <;> cases t1 <;> cases t2 <;>
    first
      | exact Option.noConfusion h
      | (obtain rfl := Option.some.inj h; rfl)

theorem create_chart9_data (df : DataFrame) (cols : Chart9Cols)
    (state : SelState) (c : Chart)
    (h : (create_chart9 df cols state).1 = some c) : chart_data_ok df c := by
  rw [create_chart9] at h
  by_cases hp : cols.text_cols.isEmpty
  · rw [if_pos hp] at h
    exact absurd h (by simp)
  · rw [if_neg hp] at h
    obtain rfl := Option.some.inj h
    rfl

theorem rules_chain_df (df1 : DataFrame) (dc tc nc : List String)
    (state : SelState) (meta0 : Option ChartMeta) :
    (rules_chain df1 dc tc nc state meta0).df = df1 := by
  unfold rules_chain
  by_cases h1 : df1.nrows = 1 ∧ 1 ≤ nc.length ∧ nc.length ≤ 4 ∧ tc.length ≤ 1
  · rw [if_pos h1]
  rw [if_neg h1]
  by_cases h2 : dc.length = 1 ∧ tc.length = 0 ∧ nc.length = 1
  · rw [if_pos h2]
    cases create_chart1 df1 ⟨some (dc.headD ""), some (nc.headD "")⟩ <;> rfl
  rw [if_neg h2]
  by_cases h3 : dc.length = 1 ∧ tc.length = 0 ∧ nc.length = 2
  · rw [if_pos h3]
    cases create_chart2 df1
      ⟨some (dc.headD ""), some (nc.getD 0 ""), some (nc.getD 1 "")⟩ <;> rfl
  rw [if_neg h3]
  by_cases h4 : dc.length = 1 ∧ tc.length = 1 ∧ nc.length = 1
  · rw [if_pos h4]
    cases create_chart3 df1
      ⟨some (dc.headD ""), some (tc.headD ""), some (nc.headD "")⟩ <;> rfl
  rw [if_neg h4]
  by_cases h5 : dc.length = 1 ∧ 2 ≤ tc.length ∧ nc.length = 1
  · rw [if_pos h5]
    obtain ⟨co, st2⟩ := create_chart4 df1
      ⟨some (dc.headD ""), tc.filter (fun c => !(dc.contains c)),
        some (nc.headD "")⟩ state
    cases co <;> rfl
  rw [if_neg h5]
  by_cases h6 : dc.length = 0 ∧ tc.length = 1 ∧ nc.length = 2
  · rw [if_pos h6]
    cases create_chart5 df1
      ⟨some (nc.getD 0 ""), some (nc.getD 1 ""), some (tc.headD "")⟩ <;> rfl
  rw [if_neg h6]
  by_cases h7 : dc.length = 0 ∧ tc.length = 2 ∧ nc.length = 2
  · rw [if_pos h7]
    cases create_chart6 df1
      ⟨some (nc.getD 0 ""), some (nc.getD 1 ""), some (tc.getD 0 ""),
        some (tc.getD 1 "")⟩ <;> rfl
  rw [if_neg h7]
  by_cases h8 : dc.length = 0 ∧ tc.length = 1 ∧ nc.length = 3
  · rw [if_pos h8]
    cases create_chart7 df1
      ⟨some (nc.getD 0 ""), some (nc.getD 1 ""), some (nc.getD 2 ""),
        some (tc.headD "")⟩ <;> rfl
  rw [if_neg h8]
  by_cases h9 : dc.length = 0 ∧ 3 ≤ nc.length ∧ 2 ≤ tc.length
  · rw [if_pos h9]
    cases create_chart8 df1
      ⟨some (nc.getD 0 ""), some (nc.getD 1 ""), some (nc.getD 2 ""),
        some (tc.getD 0 ""), some (tc.getD 1 "")⟩ <;> rfl
  rw [if_neg h9]
  by_cases h10 : dc.length = 0 ∧ nc.length = 1
  · rw [if_pos h10]
    by_cases h10b : (df1.names.filter (fun c => !(nc.contains c))).isEmpty = true
    · rw [if_pos h10b]
    · rw [if_neg h10b]
      obtain ⟨co, st2⟩ := create_chart9 df1
        ⟨some (nc.headD ""), (df1.names.filter (fun c => !(nc.contains c))).take 5,
          decide (2 ≤ (df1.names.filter (fun c => !(nc.contains c))).length)⟩ state
      cases co <;> rfl
  rw [if_neg h10]

theorem display_core_df (parse : String → Option Int) (state : SelState)
    (dfd : DataFrame) :
    (display_core parse state dfd).df = (classify_columns parse dfd).df := by
  unfold display_core
  by_cases ht : "cell_id_display" ∈ (classify_columns parse dfd).df.names ∧
      "total_tickets" ∈ (classify_columns parse dfd).df.names ∧
      "avg_sentiment" ∈ (classify_columns parse dfd).df.names
  · rw [if_pos ht]
    cases create_chart5 (classify_columns parse dfd).df
        ⟨some "total_tickets", some "avg_sentiment", some "cell_id_display"⟩ with
    | some c => rfl
    | none => exact rules_chain_df _ _ _ _ _ _
  · rw [if_neg ht]
    exact rules_chain_df _ _ _ _ _ _

theorem rules_chain_shown (df1 : DataFrame) (dc tc nc : List String)
    (state : SelState) (meta0 : Option ChartMeta) (c : Chart)
    (h : (rules_chain df1 dc tc nc state meta0).result = .shown c) :
    chart_data_ok df1 c := by
  unfold rules_chain at h
  by_cases h1 : df1.nrows = 1 ∧ 1 ≤ nc.length ∧ nc.length ≤ 4 ∧ tc.length ≤ 1
  · rw [if_pos h1] at h
    exact absurd h (by simp)
  rw [if_neg h1] at h
  by_cases h2 : dc.length = 1 ∧ tc.length = 0 ∧ nc.length = 1
  · rw [if_pos h2] at h
    cases heq : create_chart1 df1 ⟨some (dc.headD ""), some (nc.headD "")⟩ with
    | some c2 =>
      rw [heq] at h
      simp at h
      subst h
      exact create_chart1_data _ _ _ heq
    | none =>
      rw [heq] at h
      exact absurd h (by simp)
  rw [if_neg h2] at h
  by_cases h3 : dc.length = 1 ∧ tc.length = 0 ∧ nc.length = 2
  · rw [if_pos h3] at h
    cases heq : create_chart2 df1
        ⟨some (dc.headD ""), some (nc.getD 0 ""), some (nc.getD 1 "")⟩ with
    | some c2 =>
      rw [heq] at h
      simp at h
      subst h
      exact create_chart2_data _ _ _ heq
    | none =>
      rw [heq] at h
      exact absurd h (by simp)
  rw [if_neg h3] at h
  by_cases h4 : dc.length = 1 ∧ tc.length = 1 ∧ nc.length = 1
  · rw [if_pos h4] at h
    cases heq : create_chart3 df1
        ⟨some (dc.headD ""), some (tc.headD ""), some (nc.headD "")⟩ with
    | some c2 =>
      rw [heq] at h
      simp at h
      subst h
      exact create_chart3_data _ _ _ heq
    | none =>
      rw [heq] at h
      exact absurd h (by simp)
  rw [if_neg h4] at h
  by_cases h5 : dc.length = 1 ∧ 2 ≤ tc.length ∧ nc.length = 1
  · rw [if_pos h5] at h
    rcases heq : create_chart4 df1
        ⟨some (dc.headD ""), tc.filter (fun c => !(dc.contains c)),
          some (nc.headD "")⟩ state with ⟨co, st2⟩
    rw [heq] at h
    cases co with
    | some c2 =>
      simp at h
      subst h
      exact create_chart4_data _ _ _ _ (by rw [heq])
    | none =>
      exact absurd h (by simp)
  rw [if_neg h5] at h
  by_cases h6 : dc.length = 0 ∧ tc.length = 1 ∧ nc.length = 2
  · rw [if_pos h6] at h
    cases heq : create_chart5 df1
        ⟨some (nc.getD 0 ""), some (nc.getD 1 ""), some (tc.headD "")⟩ with
    | some c2 =>
      rw [heq] at h
      simp at h
      subst h
      exact create_chart5_data _ _ _ heq
    | none =>
      rw [heq] at h
      exact absurd h (by simp)
  rw [if_neg h6] at h
  by_cases h7 : dc.length = 0 ∧ tc.length = 2 ∧ nc.length = 2
  · rw [if_pos h7] at h
    cases heq : create_chart6 df1
        ⟨some (nc.getD 0 ""), some (nc.getD 1 ""), some (tc.getD 0 ""),
          some (tc.getD 1 "")⟩ with
    | some c2 =>
      rw [heq] at h
      simp at h
      subst h
      exact create_chart6_data _ _ _ heq
    | none =>
      rw [heq] at h
      exact absurd h (by simp)
  rw [if_neg h7] at h
  by_cases h8 : dc.length = 0 ∧ tc.length = 1 ∧ nc.length = 3
  · rw [if_pos h8] at h
    cases heq : create_chart7 df1
        ⟨some (nc.getD 0 ""), some (nc.getD 1 ""), some (nc.getD 2 ""),
          some (tc.headD "")⟩ with
    | some c2 =>
      rw [heq] at h
      simp at h
      subst h
      exact create_chart7_data _ _ _ heq
    | none =>
      rw [heq] at h
      exact absurd h (by simp)
  rw [if_neg h8] at h
  by_cases h9 : dc.length = 0 ∧ 3 ≤ nc.length ∧ 2 ≤ tc.length
  · rw [if_pos h9] at h
    cases heq : create_chart8 df1
        ⟨some (nc.getD 0 ""), some (nc.getD 1 ""), some (nc.getD 2 ""),
          some (tc.getD 0 ""), some (tc.getD 1 "")⟩ with
    | some c2 =>
      rw [heq] at h
      simp at h
      subst h
      exact create_chart8_data _ _ _ heq
    | none =>
      rw [heq] at h
      exact absurd h (by simp)
  rw [if_neg h9] at h
  by_cases h10 : dc.length = 0 ∧ nc.length = 1
  · rw [if_pos h10] at h
    by_cases h10b : (df1.names.filter (fun c => !(nc.contains c))).isEmpty = true
    · rw [if_pos h10b] at h
      exact absurd h (by simp)
    · rw [if_neg h10b] at h
      rcases heq : create_chart9 df1
          ⟨some (nc.headD ""), (df1.names.filter (fun c => !(nc.contains c))).take 5,
            decide (2 ≤ (df1.names.filter (fun c => !(nc.contains c))).length)⟩
          state with ⟨co, st2⟩
      rw [heq] at h
      cases co with
      | some c2 =>
        simp at h
        subst h
        exact create_chart9_data _ _ _ _ (by rw [heq])
      | none =>
        exact absurd h (by simp)
  rw [if_neg h10] at h
  exact absurd h (by simp)

theorem display_shown_data (parse : String → Option Int) (state : SelState)
    (dfd : DataFrame) (c : Chart)
    (h : (display_core parse state dfd).result = .shown c) :
    chart_data_ok (classify_columns parse dfd).df c := by
  unfold display_core at h
  by_cases ht : "cell_id_display" ∈ (classify_columns parse dfd).df.names ∧
      "total_tickets" ∈ (classify_columns parse dfd).df.names ∧
      "avg_sentiment" ∈ (classify_columns parse dfd).df.names
  · rw [if_pos ht] at h
    cases heq : create_chart5 (classify_columns parse dfd).df
        ⟨some "total_tickets", some "avg_sentiment", some "cell_id_display"⟩ with
    | some c2 =>
      rw [heq] at h
      simp at h
      subst h
      exact create_chart5_data _ _ _ heq
    | none =>
      rw [heq] at h
      exact rules_chain_shown _ _ _ _ _ _ _ h
  · rw [if_neg ht] at h
    exact rules_chain_shown _ _ _ _ _ _ _ h

/-- A frame with more than 5000 rows whose row 5001 is the parameter `w`,
for exercising the truncation boundary. -/
def df_big (w : Val) : DataFrame :=
  ⟨[⟨"c", .object, List.replicate 5000 (Val.str "r") ++ [w]⟩]⟩

/-- C10: display_chart truncates to the first 5000 rows before classifying,
selecting and building, so its whole outcome (frame, metadata, chart, state)
depends only on the first 5000 rows; the displayed frame never exceeds 5000
rows; and every chart it shows embeds exactly that truncated frame. -/
theorem C10_head_limit :
    (∀ (parse : String → Option Int) (state : SelState) (df1 df2 : DataFrame),
      df1.headRows 5000 = df2.headRows 5000 →
      display_chart parse state df1 = display_chart parse state df2) ∧
    (∀ (parse : String → Option Int) (state : SelState) (df : DataFrame),
      (display_chart parse state df).df.nrows ≤ 5000) ∧
    (∀ (parse : String → Option Int) (state : SelState) (df : DataFrame)
      (c : Chart), (display_chart parse state df).result = .shown c →
      chart_data_ok (display_chart parse state df).df c) := by
  refine ⟨?_, ?_, ?_⟩
  · intro parse state df1 df2 h
    unfold display_chart
    rw [h]
  · intro parse state df
    unfold display_chart
    rw [display_core_df, classify_nrows]
    exact headRows_nrows_le df 5000
  · intro parse state df c h
    unfold display_chart at h ⊢
    rw [display_core_df]
    exact display_shown_data parse state (df.headRows 5000) c h

/-- Closed instance of C10_head_limit: two frames of 5001 rows that differ
only in the last row produce identical display outcomes. -/
theorem C10_head_limit_witness :
    display_chart parse_none [] (df_big (Val.str "x")) =
      display_chart parse_none [] (df_big (Val.str "y")) :=
  C10_head_limit.1 parse_none [] (df_big (Val.str "x")) (df_big (Val.str "y"))
    (by
      simp only [df_big, DataFrame.headRows, List.map_cons, List.map_nil]
      rw [List.take_left' (List.length_replicate _ _),
        List.take_left' (List.length_replicate _ _)])
